import Mathlib

/-!
Verification of the probes-rs measurement core: the shared rate-derivation
algorithm (`calculate_time_difference` / `time_adjusted` in `src/lib.rs` and
the per-domain `calculate_per_minute` functions), the cgroup v1/v2 CPU and
memory backends, and the container version selector.

Machine arithmetic is embedded over `Nat`/`Int`.  The Rust code performs its
rate scaling and CPU-count normalization in IEEE-754 double precision
(`f64`); that arithmetic is embedded exactly, with a nonnegative double
represented as `F64` (NaN, +infinity, or a finite value `m * 2 ^ e`), and
round-to-nearest-ties-to-even implemented over exact integer arithmetic.
All quantities reaching the float pipeline in this code base lie in the
normal (non-subnormal, non-overflowing) range of `f64`, which the rounding
function assumes.
-/

/-- Number of bits of a natural number (`0` for `0`), via fuel recursion so
that it reduces in the kernel. -/
def bitLenAux : Nat → Nat → Nat
  | 0, _ => 0
  | fuel + 1, n => if n = 0 then 0 else bitLenAux fuel (n / 2) + 1

/-- Bit length: for `n ≥ 1`, the unique `k` with `2 ^ (k - 1) ≤ n < 2 ^ k`. -/
def bitLen (n : Nat) : Nat := bitLenAux n n

/-- Round `a / b` to the nearest integer, ties to even (`b > 0`). -/
def rheDiv (a b : Nat) : Nat :=
  let q := a / b
  let r := a % b
  if 2 * r < b then q
  else if b < 2 * r then q + 1
  else if q % 2 = 0 then q else q + 1

/-- Decide `2 ^ e ≤ a / b` using integer arithmetic only. -/
def le2pow (b a : Nat) (e : Int) : Bool :=
  if 0 ≤ e then b * 2 ^ e.toNat ≤ a else b ≤ a * 2 ^ (-e).toNat

/-- For `a, b ≥ 1`, the unique `e` with `2 ^ e ≤ a / b < 2 ^ (e + 1)`. -/
def qexp (a b : Nat) : Int :=
  let e0 : Int := (bitLen a : Int) - (bitLen b : Int)
  if le2pow b a e0 then e0 else e0 - 1

/-- A nonnegative IEEE-754 double: NaN, +∞, or a finite value `m * 2 ^ e`
(`m = 0` encodes `0.0`). -/
inductive F64 : Type
  | nan : F64
  | inf : F64
  | fin (m : Nat) (e : Int) : F64
deriving DecidableEq, Repr

/-- Round the positive rational `a / b` to the nearest double
(round-to-nearest, ties to even), assuming the result is in the normal
range.  The result's mantissa `m` satisfies `2 ^ 52 ≤ m ≤ 2 ^ 53`. -/
def roundQF (a b : Nat) : F64 :=
  if a = 0 then .fin 0 0
  else
    let e := qexp a b
    let s : Int := 52 - e
    let m := if 0 ≤ s then rheDiv (a * 2 ^ s.toNat) b else rheDiv a (b * 2 ^ (-s).toNat)
    if 1023 < e then .inf else .fin m (e - 52)

/-- Round `(a / b) * 2 ^ sh` to the nearest double. -/
def roundQFsh (a b : Nat) (sh : Int) : F64 :=
  if 0 ≤ sh then roundQF (a * 2 ^ sh.toNat) b else roundQF a (b * 2 ^ (-sh).toNat)

/-- The `n as f64`: convert a `u64` value to the nearest double. -/
def F64.ofNat (n : Nat) : F64 := roundQF n 1

/-- The `f64` division of nonnegative doubles (`x / y`). -/
def F64.div : F64 → F64 → F64
  | .nan, _ => .nan
  | _, .nan => .nan
  | .inf, .inf => .nan
  | .inf, _ => .inf
  | .fin _ _, .inf => .fin 0 0
  | .fin m1 e1, .fin m2 e2 =>
      if m2 = 0 then (if m1 = 0 then .nan else .inf)
      else if m1 = 0 then .fin 0 0
      else roundQFsh m1 m2 (e1 - e2)

/-- The `f64` multiplication by an exactly representable natural constant. -/
def F64.mulNat : F64 → Nat → F64
  | .nan, _ => .nan
  | .inf, _ => .inf
  | .fin m e, c => if m = 0 ∨ c = 0 then .fin 0 0 else roundQFsh (m * c) 1 e

/-- The Rust comparison `x > 0.0` (false on NaN). -/
def F64.gtZero : F64 → Bool
  | .nan => false
  | .inf => true
  | .fin m _ => 0 < m

/-- The Rust cast `x as u64`: truncate toward zero, saturating to
`[0, 2^64 - 1]`, NaN mapping to `0`. -/
def F64.toU64 : F64 → Nat
  | .nan => 0
  | .inf => 2 ^ 64 - 1
  | .fin m e =>
      let v := if 0 ≤ e then m * 2 ^ e.toNat else m / 2 ^ (-e).toNat
      min v (2 ^ 64 - 1)

/-- The Rust `x.round() as u64`: round half away from zero, then the
saturating cast to `u64`. -/
def F64.roundToU64 : F64 → Nat
  | .nan => 0
  | .inf => 2 ^ 64 - 1
  | .fin m e =>
      let v :=
        if 0 ≤ e then m * 2 ^ e.toNat
        else
          let d := 2 ^ (-e).toNat
          if d ≤ 2 * (m % d) then m / d + 1 else m / d
      min v (2 ^ 64 - 1)

/-!
## Error type and shared rate-engine primitives (`src/lib.rs`)
-/

/-- Modelled from the spec: the current `ProbeError` enum is declared in
`src/error.rs` of the upstream crate, but the revision of that file present
here is an older one (its `IO` variant carries no path and it lacks
`InvalidInput`), while `src/lib.rs` constructs `ProbeError::IO(e, path)` and
`ProbeError::InvalidInput(msg)`.  Per the spec (§7) there are three error
kinds: an IO failure carrying the offending path, `UnexpectedContent` with a
message, and `InvalidInput` with a message. -/
inductive ProbeError : Type
  | io (path : String) : ProbeError
  | unexpectedContent (msg : String) : ProbeError
  | invalidInput (msg : String) : ProbeError
deriving DecidableEq, Repr

deriving instance DecidableEq for Except

/-- The `calculate_time_difference` from `src/lib.rs`. -/
def calculate_time_difference (first_time second_time : Nat) :
    Except ProbeError Nat :=
  if second_time < first_time then
    .error (.invalidInput ("first time " ++ toString first_time ++
      " was after second time " ++ toString second_time))
  else
    .ok (second_time - first_time)

/-- The numeric part of `time_adjusted`:
`((first - second) as f64 / time_difference_ns as f64 * 60_000_000_000.0) as u64`
on the already-validated delta `diff = first - second`.  A zero time window
makes the `f64` division produce NaN (`0/0`, cast to `0`) or +∞ (cast to
`u64::MAX`). -/
def timeAdjustedValue (diff time_difference_ns : Nat) : Nat :=
  F64.toU64 (F64.mulNat (F64.div (F64.ofNat diff) (F64.ofNat time_difference_ns))
    60000000000)

/-- The `time_adjusted` from `src/lib.rs`. -/
def time_adjusted (field_name : String) (first_value second_value
    time_difference_ns : Nat) : Except ProbeError Nat :=
  if first_value < second_value then
    .error (.unexpectedContent ("First value " ++ toString first_value ++
      " was lower than second value " ++ toString second_value ++
      " for '" ++ field_name ++ "'"))
  else
    .ok (timeAdjustedValue (first_value - second_value) time_difference_ns)

/-!
## String utilities mirroring the std primitives the parsers use
-/

/-- ASCII whitespace test used by the modelled `split_whitespace`/`trim`. -/
def isWs (c : Char) : Bool := c = ' ' ∨ c = '\t' ∨ c = '\n' ∨ c = '\r'

def swAux : List Char → List Char → List String
  | [], cur => if cur = [] then [] else [⟨cur.reverse⟩]
  | c :: rest, cur =>
      if isWs c then
        if cur = [] then swAux rest [] else ⟨cur.reverse⟩ :: swAux rest []
      else swAux rest (c :: cur)

/-- Rust `str::split_whitespace` (collected). -/
def splitWhitespace (s : String) : List String := swAux s.data []

/-- Rust `str::trim`. -/
def trimStr (s : String) : String :=
  ⟨((s.data.dropWhile isWs).reverse.dropWhile isWs).reverse⟩

/-- Strip one trailing `'\r'`, as Rust `BufRead::lines` does per line. -/
def stripCr (cs : List Char) : List Char :=
  if cs.getLast? = some '\r' then cs.dropLast else cs

def linesAux : List Char → List Char → List String
  | [], cur => if cur = [] then [] else [⟨stripCr cur.reverse⟩]
  | c :: rest, cur =>
      if c = '\n' then (⟨stripCr cur.reverse⟩ : String) :: linesAux rest []
      else linesAux rest (c :: cur)

/-- Rust `BufRead::lines` on the full file contents: split at `'\n'`,
dropping the line terminators, with no trailing empty line. -/
def linesOf (s : String) : List String := linesAux s.data []

/-- First line of the contents as read by one `read_line` call (including
no terminator, which the callers trim away anyway). -/
def firstLine (s : String) : String := ⟨s.data.takeWhile (fun c => ¬ c = '\n')⟩

def parseDigits : List Char → Option Nat → Option Nat
  | [], acc => acc
  | c :: rest, acc =>
      if c.isDigit then
        match acc with
        | none => parseDigits rest (some (c.toNat - 48))
        | some v => parseDigits rest (some (v * 10 + (c.toNat - 48)))
      else none

/-- Rust `str::parse::<u64>()`: optional leading `'+'`, one or more ASCII
digits, value below `2 ^ 64`. -/
def parseU64Str (s : String) : Option Nat :=
  let cs := match s.data with
    | '+' :: rest => rest
    | cs => cs
  match parseDigits cs none with
  | none => none
  | some v => if v < 2 ^ 64 then some v else none

/-- The `parse_u64` from `src/lib.rs`. -/
def parse_u64 (segment : String) : Except ProbeError Nat :=
  match parseU64Str segment with
  | some v => .ok v
  | none => .error (.unexpectedContent ("Could not parse '" ++ segment ++
      "' as u64"))

/-- A file in the modelled filesystem: `none` when the file does not exist
or cannot be opened, `some contents` otherwise. -/
abbrev FileData := Option String

/-- The `file_to_string` from `src/lib.rs` over the modelled filesystem. -/
def file_to_string (file : FileData) (path : String) :
    Except ProbeError String :=
  match file with
  | none => .error (.io path)
  | some contents => .ok contents

/-- The `read_file_value_as_u64` from `src/lib.rs`: read the first line of the
file and parse it (trimmed) as `u64`. -/
def read_file_value_as_u64 (file : FileData) (path : String) :
    Except ProbeError Nat :=
  match file with
  | none => .error (.io path)
  | some contents => parse_u64 (trimStr (firstLine contents))

/-!
## CPU measurements from procfs (`src/cpu/proc.rs`)
-/

/-- The `CpuStat` from `src/cpu/proc.rs`. -/
structure CpuStat : Type where
  total : Nat
  user : Nat
  nice : Nat
  system : Nat
  idle : Nat
  iowait : Nat
  irq : Nat
  softirq : Nat
  steal : Nat
  guest : Nat
  guestnice : Nat
deriving DecidableEq, Repr

/-- The `CpuMeasurement` from `src/cpu/proc.rs`. -/
structure CpuMeasurement : Type where
  precise_time_ns : Nat
  stat : CpuStat
deriving DecidableEq, Repr

/-- The `CpuMeasurement::calculate_per_minute` from `src/cpu/proc.rs`. -/
def CpuMeasurement.calculate_per_minute (self next_measurement : CpuMeasurement) :
    Except ProbeError CpuStat :=
  Except.bind (calculate_time_difference self.precise_time_ns
    next_measurement.precise_time_ns) fun time_difference =>
  Except.bind (time_adjusted "total" next_measurement.stat.total
    self.stat.total time_difference) fun total =>
  Except.bind (time_adjusted "user" next_measurement.stat.user self.stat.user
    time_difference) fun user =>
  Except.bind (time_adjusted "nice" next_measurement.stat.nice self.stat.nice
    time_difference) fun nice =>
  Except.bind (time_adjusted "system" next_measurement.stat.system
    self.stat.system time_difference) fun system =>
  Except.bind (time_adjusted "idle" next_measurement.stat.idle self.stat.idle
    time_difference) fun idle =>
  Except.bind (time_adjusted "iowait" next_measurement.stat.iowait
    self.stat.iowait time_difference) fun iowait =>
  Except.bind (time_adjusted "irq" next_measurement.stat.irq self.stat.irq
    time_difference) fun irq =>
  Except.bind (time_adjusted "softirq" next_measurement.stat.softirq
    self.stat.softirq time_difference) fun softirq =>
  Except.bind (time_adjusted "steal" next_measurement.stat.steal
    self.stat.steal time_difference) fun steal =>
  Except.bind (time_adjusted "guest" next_measurement.stat.guest
    self.stat.guest time_difference) fun guest =>
  Except.bind (time_adjusted "guestnice" next_measurement.stat.guestnice
    self.stat.guestnice time_difference) fun guestnice =>
  .ok { total, user, nice, system, idle, iowait, irq, softirq, steal,
        guest, guestnice }

/-!
## Network traffic (`src/network.rs`)

The `Interfaces` hash map is embedded as an association list; the list order
stands for the map's iteration order.
-/

/-- The `NetworkTraffic` from `src/network.rs`. -/
structure NetworkTraffic : Type where
  received : Nat
  transmitted : Nat
deriving DecidableEq, Repr

/-- The `Interfaces` from `src/network.rs`. -/
abbrev Interfaces := List (String × NetworkTraffic)

/-- The `NetworkTrafficMeasurement` from `src/network.rs`. -/
structure NetworkTrafficMeasurement : Type where
  precise_time_ns : Nat
  interfaces : Interfaces
deriving DecidableEq, Repr

/-- The `NetworkTrafficPerMinute` from `src/network.rs`. -/
structure NetworkTrafficPerMinute : Type where
  interfaces : Interfaces
deriving DecidableEq, Repr

/-- The interface loop inside
`NetworkTrafficMeasurement::calculate_per_minute`. -/
def netLoop (td : Nat) (next_interfaces : Interfaces) :
    Interfaces → Except ProbeError Interfaces
  | [] => .ok []
  | (name, traffic) :: rest =>
    match next_interfaces.lookup name with
    | none => .error (.unexpectedContent (name ++
        " is not present in the next measurement"))
    | some next_traffic =>
        Except.bind (time_adjusted "received" next_traffic.received
          traffic.received td) fun received =>
        Except.bind (time_adjusted "transmitted" next_traffic.transmitted
          traffic.transmitted td) fun transmitted =>
        Except.bind (netLoop td next_interfaces rest) fun tail =>
        .ok ((name, { received, transmitted }) :: tail)

/-- The `NetworkTrafficMeasurement::calculate_per_minute` from `src/network.rs`. -/
def NetworkTrafficMeasurement.calculate_per_minute
    (self next_measurement : NetworkTrafficMeasurement) :
    Except ProbeError NetworkTrafficPerMinute :=
  Except.bind (calculate_time_difference self.precise_time_ns
    next_measurement.precise_time_ns) fun time_difference =>
  Except.bind (netLoop time_difference next_measurement.interfaces
    self.interfaces) fun interfaces =>
  .ok { interfaces }

/-!
## Disk stats (`src/disk_stats.rs`)

`DiskStatsMeasurement::calculate_per_minute` can panic (`panic!("wrong type
expected here TODO")`) when a device's stat changes between the `Proc` and
`Sys` variants, so its embedding returns an outcome that includes a panic.
-/

/-- Outcome of a Rust computation that may return, error, or panic/abort. -/
inductive RRes (α : Type) : Type
  | ok (a : α) : RRes α
  | err (e : ProbeError) : RRes α
  | panicked : RRes α
deriving DecidableEq, Repr

/-- Lift a `Result` computation into `RRes` (the `?` operator). -/
def RRes.bindE {α β : Type} (x : Except ProbeError α) (f : α → RRes β) : RRes β :=
  match x with
  | .ok a => f a
  | .error e => .err e

/-- Sequence two computations that may panic. -/
def RRes.bindR {α β : Type} (x : RRes α) (f : α → RRes β) : RRes β :=
  match x with
  | .ok a => f a
  | .err e => .err e
  | .panicked => .panicked

/-- The `ProcDiskStat` from `src/disk_stats.rs`. -/
structure ProcDiskStat : Type where
  reads_completed_successfully : Nat
  reads_merged : Nat
  sectors_read : Nat
  time_spent_reading_ms : Nat
  writes_completed : Nat
  writes_merged : Nat
  sectors_written : Nat
  time_spent_writing_ms : Nat
  ios_currently_in_progress : Nat
  time_spent_doing_ios_ms : Nat
  weighted_time_spent_doing_ios_ms : Nat
deriving DecidableEq, Repr

/-- The `SysDiskStat` from `src/disk_stats.rs`. -/
structure SysDiskStat : Type where
  read : Nat
  written : Nat
deriving DecidableEq, Repr

/-- The `DiskStat` from `src/disk_stats.rs`. -/
inductive DiskStat : Type
  | proc (s : ProcDiskStat) : DiskStat
  | sys (s : SysDiskStat) : DiskStat
deriving DecidableEq, Repr

/-- The `DiskStats` from `src/disk_stats.rs` (hash map as association list). -/
abbrev DiskStats := List (String × DiskStat)

/-- The `DiskStatsMeasurement` from `src/disk_stats.rs`. -/
structure DiskStatsMeasurement : Type where
  precise_time_ns : Nat
  stats : DiskStats
deriving DecidableEq, Repr

/-- The `DiskStatsPerMinute` from `src/disk_stats.rs`. -/
structure DiskStatsPerMinute : Type where
  stats : DiskStats
deriving DecidableEq, Repr

/-- Rate-adjust one `ProcDiskStat` pair inside the device loop. -/
def procDiskAdjust (td : Nat) (next_stat s : ProcDiskStat) :
    Except ProbeError ProcDiskStat :=
  Except.bind (time_adjusted "reads_completed_successfully"
    next_stat.reads_completed_successfully s.reads_completed_successfully td)
    fun reads_completed_successfully =>
  Except.bind (time_adjusted "reads_merged" next_stat.reads_merged
    s.reads_merged td) fun reads_merged =>
  Except.bind (time_adjusted "sectors_read" next_stat.sectors_read
    s.sectors_read td) fun sectors_read =>
  Except.bind (time_adjusted "time_spent_reading_ms"
    next_stat.time_spent_reading_ms s.time_spent_reading_ms td)
    fun time_spent_reading_ms =>
  Except.bind (time_adjusted "writes_completed" next_stat.writes_completed
    s.writes_completed td) fun writes_completed =>
  Except.bind (time_adjusted "writes_merged" next_stat.writes_merged
    s.writes_merged td) fun writes_merged =>
  Except.bind (time_adjusted "sectors_written" next_stat.sectors_written
    s.sectors_written td) fun sectors_written =>
  Except.bind (time_adjusted "time_spent_writing_ms"
    next_stat.time_spent_writing_ms s.time_spent_writing_ms td)
    fun time_spent_writing_ms =>
  Except.bind (time_adjusted "ios_currently_in_progress"
    next_stat.ios_currently_in_progress s.ios_currently_in_progress td)
    fun ios_currently_in_progress =>
  Except.bind (time_adjusted "time_spent_doing_ios_ms"
    next_stat.time_spent_doing_ios_ms s.time_spent_doing_ios_ms td)
    fun time_spent_doing_ios_ms =>
  Except.bind (time_adjusted "weighted_time_spent_doing_ios_ms"
    next_stat.weighted_time_spent_doing_ios_ms
    s.weighted_time_spent_doing_ios_ms td)
    fun weighted_time_spent_doing_ios_ms =>
  .ok { reads_completed_successfully, reads_merged, sectors_read,
           time_spent_reading_ms, writes_completed, writes_merged,
           sectors_written, time_spent_writing_ms, ios_currently_in_progress,
           time_spent_doing_ios_ms, weighted_time_spent_doing_ios_ms }

/-- The device loop inside `DiskStatsMeasurement::calculate_per_minute`,
including its variant-mismatch panics. -/
def diskLoop (td : Nat) (next_stats : DiskStats) : DiskStats → RRes DiskStats
  | [] => .ok []
  | (name, stat) :: rest =>
    match next_stats.lookup name with
    | none => .err (.unexpectedContent (name ++
        " is not present in the next measurement"))
    | some next_stat =>
      match stat, next_stat with
      | .proc s, .proc ns =>
        RRes.bindE (procDiskAdjust td ns s) fun result =>
          match diskLoop td next_stats rest with
          | .ok tail => .ok ((name, .proc result) :: tail)
          | .err e => .err e
          | .panicked => .panicked
      | .proc _, .sys _ => .panicked
      | .sys _, .proc _ => .panicked
      | .sys s, .sys ns =>
        RRes.bindE (time_adjusted "read" ns.read s.read td) fun readv =>
          RRes.bindE (time_adjusted "written" ns.written s.written td)
            fun writtenv =>
              match diskLoop td next_stats rest with
              | .ok tail => .ok ((name, .sys ⟨readv, writtenv⟩) :: tail)
              | .err e => .err e
              | .panicked => .panicked

/-- The `DiskStatsMeasurement::calculate_per_minute` from `src/disk_stats.rs`. -/
def DiskStatsMeasurement.calculate_per_minute
    (self next_measurement : DiskStatsMeasurement) : RRes DiskStatsPerMinute :=
  RRes.bindE (calculate_time_difference self.precise_time_ns
      next_measurement.precise_time_ns) fun time_difference =>
    match diskLoop time_difference next_measurement.stats self.stats with
    | .ok stats => .ok { stats }
    | .err e => .err e
    | .panicked => .panicked

/-!
## Cgroup CPU backends (`src/cpu/cgroup_v1.rs`, `src/cpu/cgroup_v2.rs`)

The reading functions are embedded as pure functions over the contents of
the files they open (`FileData`, `none` meaning the file is absent) and the
sampled clock value `now`.  `u64` arithmetic wraps modulo `2 ^ 64`.
-/

/-- The `u64` wrapping multiplication. -/
def wmul (a b : Nat) : Nat := a * b % 2 ^ 64

/-- The `u64` wrapping subtraction (for `a, b < 2 ^ 64`). -/
def wsub (a b : Nat) : Nat := (a + 2 ^ 64 - b) % 2 ^ 64

/-- The `bytes_to_kilo_bytes` from `src/lib.rs`. -/
def bytes_to_kilo_bytes (bytes : Nat) : Nat := bytes / 1024

/-- The `CgroupCpuStat` as used by `src/cpu/cgroup_v1.rs` and
`src/cpu/cgroup_v2.rs`. -/
structure CgroupCpuStat : Type where
  total_usage : Nat
  user : Nat
  system : Nat
deriving DecidableEq, Repr

/-- The `CgroupCpuMeasurement` as used by the cgroup CPU backends. -/
structure CgroupCpuMeasurement : Type where
  precise_time_ns : Nat
  stat : CgroupCpuStat
deriving DecidableEq, Repr

/-- The `cpuacct.stat` line loop of `read_and_parse_v1_sys_stat`: each line
is whitespace-split, `segments[1]` is parsed as `u64` (an out-of-bounds
index is a panic), "user"/"system" values are stored scaled by `10_000_000`,
and the loop breaks once both expected fields have been encountered. -/
def v1StatLoop : List String → CgroupCpuStat → Nat → RRes (CgroupCpuStat × Nat)
  | [], cpu, fields_encountered => .ok (cpu, fields_encountered)
  | line :: rest, cpu, fields_encountered =>
    let segments := splitWhitespace line
    match segments.get? 1 with
    | none => .panicked
    | some seg1 =>
      RRes.bindE (parse_u64 seg1) fun value =>
        match segments.get? 0 with
        | none => .panicked
        | some seg0 =>
          let cpu :=
            if seg0 = "user" then { cpu with user := wmul value 10000000 }
            else if seg0 = "system" then
              { cpu with system := wmul value 10000000 }
            else cpu
          let fields_encountered :=
            if seg0 = "user" ∨ seg0 = "system" then fields_encountered + 1
            else fields_encountered
          if fields_encountered = 2 then .ok (cpu, fields_encountered)
          else v1StatLoop rest cpu fields_encountered

/-- The CPU-count computation at the top of `read_and_parse_v1_sys_stat`:
`cpu_count` starts at `0.0` and is set to `quota / period` when both files
exist and the quota file does not hold the sentinel `-1`. -/
def v1CpuCount (periodFile quotaFile : FileData) : Except ProbeError F64 :=
  match periodFile, quotaFile with
  | some periodContents, some quotaContents =>
      Except.bind (parse_u64 (trimStr periodContents)) fun cpu_period =>
      let cpu_quota_raw := trimStr quotaContents
      if cpu_quota_raw = "-1" then .ok (.fin 0 0)
      else
        Except.bind (parse_u64 cpu_quota_raw) fun cpu_quota =>
        .ok (F64.div (F64.ofNat cpu_quota) (F64.ofNat cpu_period))
  | _, _ => .ok (.fin 0 0)

/-- The rest of `read_and_parse_v1_sys_stat` once `cpu_count` is known:
read `cpuacct.stat` and `cpuacct.usage`, normalize `total_usage` when
`cpu_count > 0.0`, and run the stat-line loop. -/
def v1ReadWithCount (statFile usageFile : FileData) (now : Nat)
    (cpu_count : F64) : RRes CgroupCpuMeasurement :=
  RRes.bindE (file_to_string statFile "cpuacct.stat") fun statContents =>
  RRes.bindE (read_file_value_as_u64 usageFile "cpuacct.usage")
    fun total_usage =>
  let cpu : CgroupCpuStat := { total_usage, user := 0, system := 0 }
  let cpu :=
    if cpu_count.gtZero then
      { cpu with total_usage :=
          F64.roundToU64 (F64.div (F64.ofNat cpu.total_usage) cpu_count) }
    else cpu
  match v1StatLoop (linesOf statContents) cpu 0 with
  | .panicked => .panicked
  | .err e => .err e
  | .ok (cpu, fields_encountered) =>
    if fields_encountered = 2 then .ok { precise_time_ns := now, stat := cpu }
    else .err (.unexpectedContent "Did not encounter all expected fields")

/-- The `read_and_parse_v1_sys_stat` from `src/cpu/cgroup_v1.rs`, over the
contents of the CPU period and quota files, `cpuacct.stat` and
`cpuacct.usage`. -/
def read_and_parse_v1_sys_stat (periodFile quotaFile statFile usageFile :
    FileData) (now : Nat) : RRes CgroupCpuMeasurement :=
  RRes.bindE (v1CpuCount periodFile quotaFile)
    (v1ReadWithCount statFile usageFile now)

/-- Modelled from the spec: `CgroupCpuStat::by_cpu_count` is declared in the
upstream crate's `src/cpu/cgroup.rs`, but the revision of that file present
here is an older one without it (only its caller in `src/cpu/cgroup_v2.rs`
and that caller's tests are present).  Per the spec (§4.5), "The
computed/derived `cpu_count`, if greater than zero, divides every counter in
the resulting stat (rounded to nearest integer)"; the division and rounding
use the same `f64` semantics as the v1 backend's usage normalization. -/
def CgroupCpuStat.by_cpu_count (self : CgroupCpuStat) (cpu_count : Option F64) :
    CgroupCpuStat :=
  match cpu_count with
  | some c =>
    if c.gtZero then
      { total_usage := F64.roundToU64 (F64.div (F64.ofNat self.total_usage) c),
        user := F64.roundToU64 (F64.div (F64.ofNat self.user) c),
        system := F64.roundToU64 (F64.div (F64.ofNat self.system) c) }
    else self
  | none => self

/-- The `cpu.stat` line loop of `read_and_parse_v2_sys_stat`: values are
microseconds, stored scaled by `1_000`; all three expected fields must be
encountered. -/
def v2StatLoop : List String → CgroupCpuStat → Nat → RRes (CgroupCpuStat × Nat)
  | [], cpu, fields_encountered => .ok (cpu, fields_encountered)
  | line :: rest, cpu, fields_encountered =>
    let segments := splitWhitespace line
    match segments.get? 1 with
    | none => .panicked
    | some seg1 =>
      RRes.bindE (parse_u64 seg1) fun value =>
        match segments.get? 0 with
        | none => .panicked
        | some seg0 =>
          let cpu :=
            if seg0 = "usage_usec" then
              { cpu with total_usage := wmul value 1000 }
            else if seg0 = "user_usec" then { cpu with user := wmul value 1000 }
            else if seg0 = "system_usec" then
              { cpu with system := wmul value 1000 }
            else cpu
          let fields_encountered :=
            if seg0 = "usage_usec" ∨ seg0 = "user_usec" ∨ seg0 = "system_usec"
            then fields_encountered + 1
            else fields_encountered
          if fields_encountered = 3 then .ok (cpu, fields_encountered)
          else v2StatLoop rest cpu fields_encountered

/-- The `cpu.max` probe at the top of `read_and_parse_v2_sys_stat`: when no
explicit CPU count is supplied and the file exists with a first line, read
quota and period from it unless the quota token is `"max"`. -/
def v2CpuCountProbe (cpu_count : Option F64) (maxFile : FileData) :
    RRes (Option F64) :=
  match cpu_count with
  | some c => .ok (some c)
  | none =>
    match maxFile with
    | none => .ok none
    | some maxContents =>
      match linesOf maxContents with
      | [] => .ok none
      | line :: _ =>
        let segments := splitWhitespace line
        match segments.get? 0 with
        | none => .panicked
        | some max =>
          if max = "max" then .ok none
          else
            match segments.get? 1 with
            | none => .panicked
            | some seg1 =>
              RRes.bindE (parse_u64 seg1) fun period =>
                RRes.bindE (parse_u64 max) fun maxValue =>
                  .ok (some (F64.div (F64.ofNat maxValue) (F64.ofNat period)))

/-- The `read_and_parse_v2_sys_stat` from `src/cpu/cgroup_v2.rs`. -/
def read_and_parse_v2_sys_stat (statFile maxFile : FileData)
    (cpu_count : Option F64) (now : Nat) : RRes CgroupCpuMeasurement :=
  RRes.bindR (v2CpuCountProbe cpu_count maxFile) fun cpu_count =>
  RRes.bindE (file_to_string statFile "cpu.stat") fun statContents =>
  match v2StatLoop (linesOf statContents) ⟨0, 0, 0⟩ 0 with
  | .panicked => .panicked
  | .err e => .err e
  | .ok (cpu, fields_encountered) =>
    if fields_encountered = 3 then
      .ok { precise_time_ns := now, stat := cpu.by_cpu_count cpu_count }
    else .err (.unexpectedContent "Did not encounter all expected fields")

/-!
## Memory cgroup backends (`src/memory/cgroup_v1.rs`,
`src/memory/cgroup_v2.rs`) and the container selector
(`src/memory/cgroup.rs`)

The two backend files in this source tree use differently shaped `Memory`
structs (the v1 file stores `buffers`/`cached`/`shmem` as plain integers,
the v2 file as optional values), so each is embedded against its own
struct.
-/

/-- The `Memory` as used by `src/memory/cgroup_v1.rs`. -/
structure MemoryV1 : Type where
  total : Option Nat
  free : Option Nat
  used : Nat
  buffers : Nat
  cached : Nat
  shmem : Nat
  swap_total : Option Nat
  swap_free : Option Nat
  swap_used : Option Nat
deriving DecidableEq, Repr

/-- The `Memory` as used by `src/memory/cgroup_v2.rs`. -/
structure MemoryV2 : Type where
  total : Option Nat
  free : Option Nat
  used : Nat
  buffers : Option Nat
  cached : Option Nat
  shmem : Option Nat
  swap_total : Option Nat
  swap_free : Option Nat
  swap_used : Option Nat
deriving DecidableEq, Repr

/-- The `memory.stat` scan of `read_and_parse_v1_sys_memory`: every line's
`segments[1]` is parsed (out-of-bounds is a panic); `"cache"` and `"shmem"`
values are kept (in kilobytes); the whole file is scanned. -/
def memV1StatLoop : List String → Nat → Nat → RRes (Nat × Nat)
  | [], cached, shmem => .ok (cached, shmem)
  | line :: rest, cached, shmem =>
    let segments := splitWhitespace line
    match segments.get? 1 with
    | none => .panicked
    | some seg1 =>
      RRes.bindE (parse_u64 seg1) fun value =>
        match segments.get? 0 with
        | none => .panicked
        | some seg0 =>
          if seg0 = "shmem" then
            memV1StatLoop rest cached (bytes_to_kilo_bytes value)
          else if seg0 = "cache" then
            memV1StatLoop rest (bytes_to_kilo_bytes value) shmem
          else memV1StatLoop rest cached shmem

/-- The `read_and_parse_v1_sys_memory` from `src/memory/cgroup_v1.rs`, over the
contents of `memory.limit_in_bytes`, `memory.usage_in_bytes`, `memory.stat`,
`memory.memsw.limit_in_bytes` and `memory.memsw.usage_in_bytes`. -/
def read_and_parse_v1_sys_memory (limitFile usageFile statFile memswLimitFile
    memswUsageFile : FileData) : RRes MemoryV1 :=
  RRes.bindE (read_file_value_as_u64 limitFile "memory.limit_in_bytes")
    fun limit =>
  let total : Option Nat :=
    if limit < 9223372036854771712 then some (bytes_to_kilo_bytes limit)
    else none
  RRes.bindE (read_file_value_as_u64 usageFile "memory.usage_in_bytes")
    fun usageRaw =>
  let used_memory := bytes_to_kilo_bytes usageRaw
  RRes.bindE (file_to_string statFile "memory.stat") fun statContents =>
  match memV1StatLoop (linesOf statContents) 0 0 with
  | .panicked => .panicked
  | .err e => .err e
  | .ok (cached, shmem) =>
    let used := wsub used_memory cached
    let free := total.map fun t => wsub t used
    let swap_total :=
      match read_file_value_as_u64 memswLimitFile
          "memory.memsw.limit_in_bytes" with
      | .ok value => total.map fun t => bytes_to_kilo_bytes value - t
      | .error _ => none
    let swap_used :=
      match read_file_value_as_u64 memswUsageFile
          "memory.memsw.usage_in_bytes" with
      | .ok value => some (bytes_to_kilo_bytes value - used_memory)
      | .error _ => none
    let swap_free :=
      match swap_total, swap_used with
      | some t, some u => some (t - u)
      | _, _ => none
    .ok { total, free, used, buffers := 0, cached, shmem, swap_total,
          swap_free, swap_used }

/-- The `memory.stat` scan of `read_and_parse_v2_sys_memory`: every line's
`segments[1]` is parsed (out-of-bounds is a panic) and the scan stops at the
first `"shmem"` line. -/
def memV2StatLoop : List String → RRes (Option Nat)
  | [] => .ok none
  | line :: rest =>
    let segments := splitWhitespace line
    match segments.get? 1 with
    | none => .panicked
    | some seg1 =>
      RRes.bindE (parse_u64 seg1) fun value =>
        match segments.get? 0 with
        | none => .panicked
        | some seg0 =>
          if seg0 = "shmem" then .ok (some (bytes_to_kilo_bytes value))
          else memV2StatLoop rest

/-- The `read_and_parse_v2_sys_memory` from `src/memory/cgroup_v2.rs`, over the
contents of `memory.max`, `memory.current`, `memory.stat`,
`memory.swap.max` and `memory.swap.current`. -/
def read_and_parse_v2_sys_memory (maxFile currentFile statFile swapMaxFile
    swapCurrentFile : FileData) : RRes MemoryV2 :=
  let total : Option Nat :=
    match read_file_value_as_u64 maxFile "memory.max" with
    | .ok value => some (bytes_to_kilo_bytes value)
    | .error _ => none
  RRes.bindE (read_file_value_as_u64 currentFile "memory.current")
    fun currentRaw =>
  let used := bytes_to_kilo_bytes currentRaw
  RRes.bindE (file_to_string statFile "memory.stat") fun statContents =>
  match memV2StatLoop (linesOf statContents) with
  | .panicked => .panicked
  | .err e => .err e
  | .ok shmem =>
    let free := total.map fun t => wsub t used
    let swap_total :=
      match read_file_value_as_u64 swapMaxFile "memory.swap.max" with
      | .ok value => total.map fun t => bytes_to_kilo_bytes value - t
      | .error _ => none
    let swap_used :=
      match read_file_value_as_u64 swapCurrentFile "memory.swap.current" with
      | .ok value => some (bytes_to_kilo_bytes value)
      | .error _ => none
    let swap_free :=
      match swap_total, swap_used with
      | some t, some u => some (t - u)
      | _, _ => none
    .ok { total, free, used, buffers := none, cached := none, shmem,
          swap_total, swap_free, swap_used }

/-- The `read_from_container` from `src/memory/cgroup.rs`: probe the cgroup v2
marker file `/sys/fs/cgroup/memory.current` first and delegate to the v2
backend when it exists; otherwise probe the v1 directory
`/sys/fs/cgroup/memory/` and delegate to the v1 backend; otherwise fail.
The backends' results are abstract parameters. -/
def read_from_container {M : Type} (v2_file_exists v1_dir_exists : Bool)
    (v2_result v1_result : Except ProbeError M) : Except ProbeError M :=
  if v2_file_exists then v2_result
  else if v1_dir_exists then v1_result
  else .error (.unexpectedContent
    "Directory `/sys/fs/cgroup/memory/` not found")

/-- The counter fields of a `CpuStat`. -/
inductive CpuField : Type
  | total | user | nice | system | idle | iowait | irq | softirq | steal
  | guest | guestnice
deriving DecidableEq, Repr

/-- Access a `CpuStat` counter by field. -/
def CpuStat.field (s : CpuStat) : CpuField → Nat
  | .total => s.total
  | .user => s.user
  | .nice => s.nice
  | .system => s.system
  | .idle => s.idle
  | .iowait => s.iowait
  | .irq => s.irq
  | .softirq => s.softirq
  | .steal => s.steal
  | .guest => s.guest
  | .guestnice => s.guestnice

/-- The name `calculate_per_minute` passes to `time_adjusted` for a field. -/
def CpuField.fieldName : CpuField → String
  | .total => "total"
  | .user => "user"
  | .nice => "nice"
  | .system => "system"
  | .idle => "idle"
  | .iowait => "iowait"
  | .irq => "irq"
  | .softirq => "softirq"
  | .steal => "steal"
  | .guest => "guest"
  | .guestnice => "guestnice"

/-- Whether `needle` occurs as a prefix of `hay`. -/
def leadsWith : List Char → List Char → Bool
  | [], _ => true
  | _ :: _, [] => false
  | a :: as, b :: bs => a = b && leadsWith as bs

/-- Whether `needle` occurs as a contiguous substring of `hay`. -/
def occursIn (needle : List Char) : List Char → Bool
  | [] => needle.isEmpty
  | c :: rest => leadsWith needle (c :: rest) || occursIn needle rest

/-- Pointwise "no counter decreased, same variant" for disk stats. -/
def DiskLe : DiskStat → DiskStat → Prop
  | .proc s, .proc ns =>
      s.reads_completed_successfully ≤ ns.reads_completed_successfully ∧
      s.reads_merged ≤ ns.reads_merged ∧
      s.sectors_read ≤ ns.sectors_read ∧
      s.time_spent_reading_ms ≤ ns.time_spent_reading_ms ∧
      s.writes_completed ≤ ns.writes_completed ∧
      s.writes_merged ≤ ns.writes_merged ∧
      s.sectors_written ≤ ns.sectors_written ∧
      s.time_spent_writing_ms ≤ ns.time_spent_writing_ms ∧
      s.ios_currently_in_progress ≤ ns.ios_currently_in_progress ∧
      s.time_spent_doing_ios_ms ≤ ns.time_spent_doing_ios_ms ∧
      s.weighted_time_spent_doing_ios_ms ≤ ns.weighted_time_spent_doing_ios_ms
  | .sys s, .sys ns => s.read ≤ ns.read ∧ s.written ≤ ns.written
  | _, _ => False

set_option maxRecDepth 100000

/-!
## Basic facts about the rate-engine primitives
-/

theorem ctd_ok {first_time second_time : Nat} (h : first_time ≤ second_time) :
    calculate_time_difference first_time second_time =
      .ok (second_time - first_time) := by
  simp [calculate_time_difference, Nat.not_lt.mpr h]

theorem ctd_err {first_time second_time : Nat} (h : second_time < first_time) :
    calculate_time_difference first_time second_time =
      .error (.invalidInput ("first time " ++ toString first_time ++
        " was after second time " ++ toString second_time)) := by
  simp [calculate_time_difference, h]

theorem ta_ok {field_name : String} {first_value second_value td : Nat}
    (h : second_value ≤ first_value) :
    time_adjusted field_name first_value second_value td =
      .ok (timeAdjustedValue (first_value - second_value) td) := by
  simp [time_adjusted, Nat.not_lt.mpr h]

theorem ta_err {field_name : String} {first_value second_value td : Nat}
    (h : first_value < second_value) :
    time_adjusted field_name first_value second_value td =
      .error (.unexpectedContent ("First value " ++ toString first_value ++
        " was lower than second value " ++ toString second_value ++
        " for '" ++ field_name ++ "'")) := by
  simp [time_adjusted, h]

/-!
## Claims C1–C3: the rate engine on CPU measurements
-/

/-- C1: for measurements with strictly increasing timestamps and
non-decreasing counters, `calculate_per_minute` returns `Ok` and each field
is the field delta divided by the time window and scaled to 60 seconds,
computed in `f64` and truncated toward zero; for the spec's example delta
`1200` a 60-second window leaves the delta unchanged and a 30-second window
doubles it.  (The claim's universal "a 60-second window leaves deltas
unchanged" fails for other deltas, see the counterexample: delta `59` over a
60-second window yields `58`.) -/
theorem claim_C1 (prev next : CpuMeasurement)
    (ht : prev.precise_time_ns < next.precise_time_ns)
    (htotal : prev.stat.total ≤ next.stat.total)
    (huser : prev.stat.user ≤ next.stat.user)
    (hnice : prev.stat.nice ≤ next.stat.nice)
    (hsystem : prev.stat.system ≤ next.stat.system)
    (hidle : prev.stat.idle ≤ next.stat.idle)
    (hiowait : prev.stat.iowait ≤ next.stat.iowait)
    (hirq : prev.stat.irq ≤ next.stat.irq)
    (hsoftirq : prev.stat.softirq ≤ next.stat.softirq)
    (hsteal : prev.stat.steal ≤ next.stat.steal)
    (hguest : prev.stat.guest ≤ next.stat.guest)
    (hguestnice : prev.stat.guestnice ≤ next.stat.guestnice) :
    prev.calculate_per_minute next = .ok
      { total := timeAdjustedValue (next.stat.total - prev.stat.total)
          (next.precise_time_ns - prev.precise_time_ns),
        user := timeAdjustedValue (next.stat.user - prev.stat.user)
          (next.precise_time_ns - prev.precise_time_ns),
        nice := timeAdjustedValue (next.stat.nice - prev.stat.nice)
          (next.precise_time_ns - prev.precise_time_ns),
        system := timeAdjustedValue (next.stat.system - prev.stat.system)
          (next.precise_time_ns - prev.precise_time_ns),
        idle := timeAdjustedValue (next.stat.idle - prev.stat.idle)
          (next.precise_time_ns - prev.precise_time_ns),
        iowait := timeAdjustedValue (next.stat.iowait - prev.stat.iowait)
          (next.precise_time_ns - prev.precise_time_ns),
        irq := timeAdjustedValue (next.stat.irq - prev.stat.irq)
          (next.precise_time_ns - prev.precise_time_ns),
        softirq := timeAdjustedValue (next.stat.softirq - prev.stat.softirq)
          (next.precise_time_ns - prev.precise_time_ns),
        steal := timeAdjustedValue (next.stat.steal - prev.stat.steal)
          (next.precise_time_ns - prev.precise_time_ns),
        guest := timeAdjustedValue (next.stat.guest - prev.stat.guest)
          (next.precise_time_ns - prev.precise_time_ns),
        guestnice := timeAdjustedValue
          (next.stat.guestnice - prev.stat.guestnice)
          (next.precise_time_ns - prev.precise_time_ns) } ∧
    timeAdjustedValue 1200 60000000000 = 1200 ∧
    timeAdjustedValue 1200 30000000000 = 2400 := by
  refine ⟨?_, by decide, by decide⟩
  simp [CpuMeasurement.calculate_per_minute, ctd_ok (Nat.le_of_lt ht),
    ta_ok htotal, ta_ok huser, ta_ok hnice, ta_ok hsystem, ta_ok hidle,
    ta_ok hiowait, ta_ok hirq, ta_ok hsoftirq, ta_ok hsteal, ta_ok hguest,
    ta_ok hguestnice, Except.bind]

theorem claim_C1_witness :
    CpuMeasurement.calculate_per_minute ⟨0, ⟨0, 0, 0, 0, 0, 0, 0, 0, 0, 0, 0⟩⟩
      ⟨60000000000, ⟨1200, 1200, 1200, 1200, 1200, 1200, 1200, 1200, 1200,
        1200, 1200⟩⟩ = .ok
      { total := timeAdjustedValue 1200 60000000000,
        user := timeAdjustedValue 1200 60000000000,
        nice := timeAdjustedValue 1200 60000000000,
        system := timeAdjustedValue 1200 60000000000,
        idle := timeAdjustedValue 1200 60000000000,
        iowait := timeAdjustedValue 1200 60000000000,
        irq := timeAdjustedValue 1200 60000000000,
        softirq := timeAdjustedValue 1200 60000000000,
        steal := timeAdjustedValue 1200 60000000000,
        guest := timeAdjustedValue 1200 60000000000,
        guestnice := timeAdjustedValue 1200 60000000000 } ∧
    timeAdjustedValue 1200 60000000000 = 1200 ∧
    timeAdjustedValue 1200 30000000000 = 2400 :=
  claim_C1 _ _ (by decide) (by decide) (by decide) (by decide) (by decide)
    (by decide) (by decide) (by decide) (by decide) (by decide) (by decide)
    (by decide)

/-- C1 counterexample: a 60-second window does not leave deltas unchanged in
general.  Every counter's delta here is `59` over exactly 60 seconds, yet
every field of the result is `58` (`59 / 60e9 * 60e9` rounds just below `59`
in `f64` and the cast truncates toward zero). -/
theorem claim_C1_cex :
    CpuMeasurement.calculate_per_minute ⟨0, ⟨0, 0, 0, 0, 0, 0, 0, 0, 0, 0, 0⟩⟩
      ⟨60000000000, ⟨59, 59, 59, 59, 59, 59, 59, 59, 59, 59, 59⟩⟩ =
      .ok ⟨58, 58, 58, 58, 58, 58, 58, 58, 58, 58, 58⟩ := by decide

/-- C2 (amended): `calculate_per_minute` fails with `InvalidInput` exactly
when `next.precise_time_ns` is strictly below `prev.precise_time_ns`; the
equal-timestamp case is accepted (see the counterexample). -/
theorem claim_C2 (prev next : CpuMeasurement)
    (h : next.precise_time_ns < prev.precise_time_ns) :
    prev.calculate_per_minute next = .error (.invalidInput
      ("first time " ++ toString prev.precise_time_ns ++
        " was after second time " ++ toString next.precise_time_ns)) := by
  simp [CpuMeasurement.calculate_per_minute, ctd_err h, Except.bind]

theorem claim_C2_witness :
    CpuMeasurement.calculate_per_minute
      ⟨90000000000, ⟨0, 0, 0, 0, 0, 0, 0, 0, 0, 0, 0⟩⟩
      ⟨60000000000, ⟨0, 0, 0, 0, 0, 0, 0, 0, 0, 0, 0⟩⟩ =
      .error (.invalidInput ("first time " ++ toString 90000000000 ++
        " was after second time " ++ toString 60000000000)) :=
  claim_C2 _ _ (by decide)

/-- C2 counterexample: with exactly equal timestamps `calculate_per_minute`
does not fail — `calculate_time_difference` only rejects strictly decreasing
times, so the window is `0` and each all-zero counter delta becomes
`0.0 / 0.0 = NaN`, cast to `0`: the call returns `Ok`. -/
theorem claim_C2_cex :
    CpuMeasurement.calculate_per_minute
      ⟨100, ⟨0, 0, 0, 0, 0, 0, 0, 0, 0, 0, 0⟩⟩
      ⟨100, ⟨0, 0, 0, 0, 0, 0, 0, 0, 0, 0, 0⟩⟩ =
      .ok ⟨0, 0, 0, 0, 0, 0, 0, 0, 0, 0, 0⟩ := by decide

/-- C3: with valid (increasing) timestamps, a single decreasing counter
field makes `calculate_per_minute` fail with `UnexpectedContent` naming that
field, even when every other field is non-decreasing; no partial result is
returned and the delta is not clamped. -/
theorem claim_C3 (prev next : CpuMeasurement) (f : CpuField)
    (ht : prev.precise_time_ns < next.precise_time_ns)
    (hoff : next.stat.field f < prev.stat.field f)
    (hothers : ∀ g : CpuField, g ≠ f → prev.stat.field g ≤ next.stat.field g) :
    prev.calculate_per_minute next = .error (.unexpectedContent
      ("First value " ++ toString (next.stat.field f) ++
        " was lower than second value " ++ toString (prev.stat.field f) ++
        " for '" ++ f.fieldName ++ "'")) := by
  cases f
  case total =>
    simp only [CpuStat.field] at hoff
    simp [CpuMeasurement.calculate_per_minute, ctd_ok (Nat.le_of_lt ht),
      ta_err hoff, Except.bind, CpuStat.field, CpuField.fieldName]
  case user =>
    have h0 := hothers .total (by decide)
    simp only [CpuStat.field] at hoff h0
    simp [CpuMeasurement.calculate_per_minute, ctd_ok (Nat.le_of_lt ht),
      ta_ok h0, ta_err hoff, Except.bind, CpuStat.field, CpuField.fieldName]
  case nice =>
    have h0 := hothers .total (by decide)
    have h1 := hothers .user (by decide)
    simp only [CpuStat.field] at hoff h0 h1
    simp [CpuMeasurement.calculate_per_minute, ctd_ok (Nat.le_of_lt ht),
      ta_ok h0, ta_ok h1, ta_err hoff, Except.bind, CpuStat.field,
      CpuField.fieldName]
  case system =>
    have h0 := hothers .total (by decide)
    have h1 := hothers .user (by decide)
    have h2 := hothers .nice (by decide)
    simp only [CpuStat.field] at hoff h0 h1 h2
    simp [CpuMeasurement.calculate_per_minute, ctd_ok (Nat.le_of_lt ht),
      ta_ok h0, ta_ok h1, ta_ok h2, ta_err hoff, Except.bind, CpuStat.field,
      CpuField.fieldName]
  case idle =>
    have h0 := hothers .total (by decide)
    have h1 := hothers .user (by decide)
    have h2 := hothers .nice (by decide)
    have h3 := hothers .system (by decide)
    simp only [CpuStat.field] at hoff h0 h1 h2 h3
    simp [CpuMeasurement.calculate_per_minute, ctd_ok (Nat.le_of_lt ht),
      ta_ok h0, ta_ok h1, ta_ok h2, ta_ok h3, ta_err hoff, Except.bind,
      CpuStat.field, CpuField.fieldName]
  case iowait =>
    have h0 := hothers .total (by decide)
    have h1 := hothers .user (by decide)
    have h2 := hothers .nice (by decide)
    have h3 := hothers .system (by decide)
    have h4 := hothers .idle (by decide)
    simp only [CpuStat.field] at hoff h0 h1 h2 h3 h4
    simp [CpuMeasurement.calculate_per_minute, ctd_ok (Nat.le_of_lt ht),
      ta_ok h0, ta_ok h1, ta_ok h2, ta_ok h3, ta_ok h4, ta_err hoff,
      Except.bind, CpuStat.field, CpuField.fieldName]
  case irq =>
    have h0 := hothers .total (by decide)
    have h1 := hothers .user (by decide)
    have h2 := hothers .nice (by decide)
    have h3 := hothers .system (by decide)
    have h4 := hothers .idle (by decide)
    have h5 := hothers .iowait (by decide)
    simp only [CpuStat.field] at hoff h0 h1 h2 h3 h4 h5
    simp [CpuMeasurement.calculate_per_minute, ctd_ok (Nat.le_of_lt ht),
      ta_ok h0, ta_ok h1, ta_ok h2, ta_ok h3, ta_ok h4, ta_ok h5,
      ta_err hoff, Except.bind, CpuStat.field, CpuField.fieldName]
  case softirq =>
    have h0 := hothers .total (by decide)
    have h1 := hothers .user (by decide)
    have h2 := hothers .nice (by decide)
    have h3 := hothers .system (by decide)
    have h4 := hothers .idle (by decide)
    have h5 := hothers .iowait (by decide)
    have h6 := hothers .irq (by decide)
    simp only [CpuStat.field] at hoff h0 h1 h2 h3 h4 h5 h6
    simp [CpuMeasurement.calculate_per_minute, ctd_ok (Nat.le_of_lt ht),
      ta_ok h0, ta_ok h1, ta_ok h2, ta_ok h3, ta_ok h4, ta_ok h5, ta_ok h6,
      ta_err hoff, Except.bind, CpuStat.field, CpuField.fieldName]
  case steal =>
    have h0 := hothers .total (by decide)
    have h1 := hothers .user (by decide)
    have h2 := hothers .nice (by decide)
    have h3 := hothers .system (by decide)
    have h4 := hothers .idle (by decide)
    have h5 := hothers .iowait (by decide)
    have h6 := hothers .irq (by decide)
    have h7 := hothers .softirq (by decide)
    simp only [CpuStat.field] at hoff h0 h1 h2 h3 h4 h5 h6 h7
    simp [CpuMeasurement.calculate_per_minute, ctd_ok (Nat.le_of_lt ht),
      ta_ok h0, ta_ok h1, ta_ok h2, ta_ok h3, ta_ok h4, ta_ok h5, ta_ok h6,
      ta_ok h7, ta_err hoff, Except.bind, CpuStat.field, CpuField.fieldName]
  case guest =>
    have h0 := hothers .total (by decide)
    have h1 := hothers .user (by decide)
    have h2 := hothers .nice (by decide)
    have h3 := hothers .system (by decide)
    have h4 := hothers .idle (by decide)
    have h5 := hothers .iowait (by decide)
    have h6 := hothers .irq (by decide)
    have h7 := hothers .softirq (by decide)
    have h8 := hothers .steal (by decide)
    simp only [CpuStat.field] at hoff h0 h1 h2 h3 h4 h5 h6 h7 h8
    simp [CpuMeasurement.calculate_per_minute, ctd_ok (Nat.le_of_lt ht),
      ta_ok h0, ta_ok h1, ta_ok h2, ta_ok h3, ta_ok h4, ta_ok h5, ta_ok h6,
      ta_ok h7, ta_ok h8, ta_err hoff, Except.bind, CpuStat.field,
      CpuField.fieldName]
  case guestnice =>
    have h0 := hothers .total (by decide)
    have h1 := hothers .user (by decide)
    have h2 := hothers .nice (by decide)
    have h3 := hothers .system (by decide)
    have h4 := hothers .idle (by decide)
    have h5 := hothers .iowait (by decide)
    have h6 := hothers .irq (by decide)
    have h7 := hothers .softirq (by decide)
    have h8 := hothers .steal (by decide)
    have h9 := hothers .guest (by decide)
    simp only [CpuStat.field] at hoff h0 h1 h2 h3 h4 h5 h6 h7 h8 h9
    simp [CpuMeasurement.calculate_per_minute, ctd_ok (Nat.le_of_lt ht),
      ta_ok h0, ta_ok h1, ta_ok h2, ta_ok h3, ta_ok h4, ta_ok h5, ta_ok h6,
      ta_ok h7, ta_ok h8, ta_ok h9, ta_err hoff, Except.bind, CpuStat.field,
      CpuField.fieldName]

theorem claim_C3_witness :
    CpuMeasurement.calculate_per_minute
      ⟨60000000000, ⟨9, 9, 9, 9, 9, 7, 9, 9, 9, 9, 9⟩⟩
      ⟨120000000000, ⟨10, 10, 10, 10, 10, 3, 10, 10, 10, 10, 10⟩⟩ =
      .error (.unexpectedContent ("First value " ++ toString 3 ++
        " was lower than second value " ++ toString 7 ++
        " for '" ++ CpuField.iowait.fieldName ++ "'")) :=
  claim_C3 _ _ .iowait (by decide) (by decide)
    (by intro g hg; cases g <;> first | decide | exact absurd rfl hg)

/-!
## Claim C5: the container version selector
-/

/-- C5 (amended): the selector delegates to the v2 backend whenever the v2
marker file exists (regardless of a stale v1 directory), otherwise to the v1
backend when the v1 directory exists, and otherwise fails with
`UnexpectedContent` naming the v1 directory path (only — see the
counterexample: the error does not name the v2 marker path); there is no
silent fallback. -/
theorem claim_C5 {M : Type} (v2_file_exists v1_dir_exists : Bool)
    (v2_result v1_result : Except ProbeError M) :
    (v2_file_exists = true →
      read_from_container v2_file_exists v1_dir_exists v2_result v1_result =
        v2_result) ∧
    (v2_file_exists = false → v1_dir_exists = true →
      read_from_container v2_file_exists v1_dir_exists v2_result v1_result =
        v1_result) ∧
    (v2_file_exists = false → v1_dir_exists = false →
      read_from_container v2_file_exists v1_dir_exists v2_result v1_result =
        .error (.unexpectedContent
          "Directory `/sys/fs/cgroup/memory/` not found")) := by
  refine ⟨fun h2 => ?_, fun h2 h1 => ?_, fun h2 h1 => ?_⟩ <;>
    simp [read_from_container, h2]
  · simp [h1]
  · simp [h1]

theorem claim_C5_witness :
    (read_from_container true true (.ok (0 : Nat)) (.ok 1) = .ok 0) ∧
    (read_from_container false true (.ok (0 : Nat)) (.ok 1) = .ok 1) ∧
    (read_from_container false false (.ok (0 : Nat)) (.ok 1) =
      .error (.unexpectedContent
        "Directory `/sys/fs/cgroup/memory/` not found")) :=
  ⟨(claim_C5 true true (.ok 0) (.ok 1)).1 rfl,
   (claim_C5 false true (.ok 0) (.ok 1)).2.1 rfl rfl,
   (claim_C5 false false (.ok 0) (.ok 1)).2.2 rfl rfl⟩

/-- C5 counterexample: when neither cgroup interface is present the error
message is `"Directory `/sys/fs/cgroup/memory/` not found"`, which names
only the probed v1 directory; the probed v2 marker path
(`/sys/fs/cgroup/memory.current`) does not occur in it, so the error does
not name both probed paths. -/
theorem claim_C5_cex :
    read_from_container false false (.ok (0 : Nat)) (.ok 1) =
      .error (.unexpectedContent
        "Directory `/sys/fs/cgroup/memory/` not found") ∧
    occursIn "memory.current".data
      "Directory `/sys/fs/cgroup/memory/` not found".data = false := by
  constructor
  · rfl
  · decide

/-!
## Claim C6: the read/parse functions can panic on malformed content
-/

/-- C6 is violated by the code: the backend parsers index `segments[1]`
(and `segments[0]`) without a bounds check, so a stat-file line with fewer
than two whitespace-separated tokens makes them panic instead of returning
`Err`.  Here `cpuacct.stat` containing the single-token line `"user"`
panics the v1 CPU parser, and a `memory.stat` containing an empty line
panics both memory parsers, while all other file contents are well-formed. -/
theorem claim_C6 :
    read_and_parse_v1_sys_stat none none (some "user\n")
      (some "152657213021\n") 7 = .panicked ∧
    read_and_parse_v1_sys_memory (some "524288000\n") (some "69148672\n")
      (some "cache 60342272\n\nshmem 0\n") none none = .panicked ∧
    read_and_parse_v2_sys_memory (some "524288000\n") (some "69148672\n")
      (some "\nshmem 0\n") none none = .panicked := by
  refine ⟨by decide, by decide, by decide⟩

/-!
## Claim C4: key structure of the map-like domains
-/

theorem netLoop_missing (td : Nat) (nextIfs : Interfaces) :
    ∀ (ifs : Interfaces) (k : String), (∃ v, (k, v) ∈ ifs) →
    nextIfs.lookup k = none →
    (∀ k' v', (k', v') ∈ ifs → k' ≠ k →
      ∃ nv, nextIfs.lookup k' = some nv ∧ v'.received ≤ nv.received ∧
        v'.transmitted ≤ nv.transmitted) →
    netLoop td nextIfs ifs = .error (.unexpectedContent
      (k ++ " is not present in the next measurement"))
  | [], k, ⟨v, hv⟩, _, _ => absurd hv (List.not_mem_nil _)
  | (k0, v0) :: rest, k, ⟨v, hv⟩, hk, hothers => by
    by_cases hk0 : k0 = k
    · subst hk0
      simp [netLoop, hk]
    · obtain ⟨nv, hnv, hrec, htr⟩ := hothers k0 v0 (List.mem_cons_self _ _) hk0
      have hvrest : (k, v) ∈ rest := by
        rcases List.mem_cons.mp hv with h | h
        · injection h with h1 h2
          exact absurd h1.symm hk0
        · exact h
      simp [netLoop, hnv, ta_ok hrec, ta_ok htr, Except.bind,
        netLoop_missing td nextIfs rest k ⟨v, hvrest⟩ hk
          (fun k' v' hm hne => hothers k' v' (List.mem_cons_of_mem _ hm) hne)]

theorem netLoop_ok (td : Nat) (nextIfs : Interfaces) :
    ∀ ifs : Interfaces,
    (∀ k v, (k, v) ∈ ifs → ∃ nv, nextIfs.lookup k = some nv ∧
      v.received ≤ nv.received ∧ v.transmitted ≤ nv.transmitted) →
    ∃ out, netLoop td nextIfs ifs = .ok out ∧
      out.map Prod.fst = ifs.map Prod.fst
  | [], _ => ⟨[], rfl, rfl⟩
  | (k0, v0) :: rest, hall => by
    obtain ⟨nv, hnv, hrec, htr⟩ := hall k0 v0 (List.mem_cons_self _ _)
    obtain ⟨out, hout, hkeys⟩ := netLoop_ok td nextIfs rest
      (fun k v hm => hall k v (List.mem_cons_of_mem _ hm))
    exact ⟨(k0, ⟨timeAdjustedValue (nv.received - v0.received) td,
        timeAdjustedValue (nv.transmitted - v0.transmitted) td⟩) :: out,
      by simp [netLoop, hnv, ta_ok hrec, ta_ok htr, Except.bind, hout],
      by simp [hkeys]⟩

theorem procDiskAdjust_ok (td : Nat) (ns s : ProcDiskStat)
    (h : DiskLe (.proc s) (.proc ns)) :
    procDiskAdjust td ns s = .ok
      ⟨timeAdjustedValue (ns.reads_completed_successfully -
          s.reads_completed_successfully) td,
        timeAdjustedValue (ns.reads_merged - s.reads_merged) td,
        timeAdjustedValue (ns.sectors_read - s.sectors_read) td,
        timeAdjustedValue (ns.time_spent_reading_ms -
          s.time_spent_reading_ms) td,
        timeAdjustedValue (ns.writes_completed - s.writes_completed) td,
        timeAdjustedValue (ns.writes_merged - s.writes_merged) td,
        timeAdjustedValue (ns.sectors_written - s.sectors_written) td,
        timeAdjustedValue (ns.time_spent_writing_ms -
          s.time_spent_writing_ms) td,
        timeAdjustedValue (ns.ios_currently_in_progress -
          s.ios_currently_in_progress) td,
        timeAdjustedValue (ns.time_spent_doing_ios_ms -
          s.time_spent_doing_ios_ms) td,
        timeAdjustedValue (ns.weighted_time_spent_doing_ios_ms -
          s.weighted_time_spent_doing_ios_ms) td⟩ := by
  obtain ⟨h1, h2, h3, h4, h5, h6, h7, h8, h9, h10, h11⟩ := h
  simp [procDiskAdjust, ta_ok h1, ta_ok h2, ta_ok h3, ta_ok h4, ta_ok h5,
    ta_ok h6, ta_ok h7, ta_ok h8, ta_ok h9, ta_ok h10, ta_ok h11, Except.bind]

theorem diskLoop_missing (td : Nat) (nextStats : DiskStats) :
    ∀ (stats : DiskStats) (k : String), (∃ v, (k, v) ∈ stats) →
    nextStats.lookup k = none →
    (∀ k' v', (k', v') ∈ stats → k' ≠ k →
      ∃ nv, nextStats.lookup k' = some nv ∧ DiskLe v' nv) →
    diskLoop td nextStats stats = .err (.unexpectedContent
      (k ++ " is not present in the next measurement"))
  | [], k, ⟨v, hv⟩, _, _ => absurd hv (List.not_mem_nil _)
  | (k0, v0) :: rest, k, ⟨v, hv⟩, hk, hothers => by
    by_cases hk0 : k0 = k
    · subst hk0
      cases v0 <;> simp [diskLoop, hk]
    · obtain ⟨nv, hnv, hle⟩ := hothers k0 v0 (List.mem_cons_self _ _) hk0
      have hvrest : (k, v) ∈ rest := by
        rcases List.mem_cons.mp hv with h | h
        · injection h with h1 h2
          exact absurd h1.symm hk0
        · exact h
      have ih := diskLoop_missing td nextStats rest k ⟨v, hvrest⟩ hk
        (fun k' v' hm hne => hothers k' v' (List.mem_cons_of_mem _ hm) hne)
      cases v0 with
      | proc s =>
        cases nv with
        | proc ns =>
          simp [diskLoop, hnv, procDiskAdjust_ok td ns s hle, RRes.bindE, ih]
        | sys ns => exact absurd hle id
      | sys s =>
        cases nv with
        | proc ns => exact absurd hle id
        | sys ns =>
          obtain ⟨hr, hw⟩ := hle
          simp [diskLoop, hnv, ta_ok hr, ta_ok hw, RRes.bindE, ih]

theorem diskLoop_ok (td : Nat) (nextStats : DiskStats) :
    ∀ stats : DiskStats,
    (∀ k v, (k, v) ∈ stats → ∃ nv, nextStats.lookup k = some nv ∧
      DiskLe v nv) →
    ∃ out, diskLoop td nextStats stats = .ok out ∧
      out.map Prod.fst = stats.map Prod.fst
  | [], _ => ⟨[], rfl, rfl⟩
  | (k0, v0) :: rest, hall => by
    obtain ⟨nv, hnv, hle⟩ := hall k0 v0 (List.mem_cons_self _ _)
    obtain ⟨out, hout, hkeys⟩ := diskLoop_ok td nextStats rest
      (fun k v hm => hall k v (List.mem_cons_of_mem _ hm))
    cases v0 with
    | proc s =>
      cases nv with
      | proc ns =>
        refine ⟨(k0, .proc ⟨timeAdjustedValue
          (ns.reads_completed_successfully -
            s.reads_completed_successfully) td,
          timeAdjustedValue (ns.reads_merged - s.reads_merged) td,
          timeAdjustedValue (ns.sectors_read - s.sectors_read) td,
          timeAdjustedValue (ns.time_spent_reading_ms -
            s.time_spent_reading_ms) td,
          timeAdjustedValue (ns.writes_completed - s.writes_completed) td,
          timeAdjustedValue (ns.writes_merged - s.writes_merged) td,
          timeAdjustedValue (ns.sectors_written - s.sectors_written) td,
          timeAdjustedValue (ns.time_spent_writing_ms -
            s.time_spent_writing_ms) td,
          timeAdjustedValue (ns.ios_currently_in_progress -
            s.ios_currently_in_progress) td,
          timeAdjustedValue (ns.time_spent_doing_ios_ms -
            s.time_spent_doing_ios_ms) td,
          timeAdjustedValue (ns.weighted_time_spent_doing_ios_ms -
            s.weighted_time_spent_doing_ios_ms) td⟩) :: out, ?_,
          by simp [hkeys]⟩
        simp [diskLoop, hnv, procDiskAdjust_ok td ns s hle, RRes.bindE, hout]
      | sys ns => exact absurd hle id
    | sys s =>
      cases nv with
      | proc ns => exact absurd hle id
      | sys ns =>
        obtain ⟨hr, hw⟩ := hle
        refine ⟨(k0, .sys ⟨timeAdjustedValue (ns.read - s.read) td,
          timeAdjustedValue (ns.written - s.written) td⟩) :: out, ?_,
          by simp [hkeys]⟩
        simp [diskLoop, hnv, ta_ok hr, ta_ok hw, RRes.bindE, hout]

/-- C4: in the map-like domains (network interfaces, disk devices), a key
present in `prev` but absent from `next` makes `calculate_per_minute` fail
with `UnexpectedContent` naming that key (given the other entries are
valid); keys present only in `next` are ignored; and on success the result
map contains exactly the keys of `prev` — i.e. the keys common to both,
since every `prev` key must then also be in `next`. -/
theorem claim_C4 :
    (∀ (prev next : NetworkTrafficMeasurement) (k : String),
      prev.precise_time_ns < next.precise_time_ns →
      (∃ v, (k, v) ∈ prev.interfaces) →
      next.interfaces.lookup k = none →
      (∀ k' v', (k', v') ∈ prev.interfaces → k' ≠ k →
        ∃ nv, next.interfaces.lookup k' = some nv ∧
          v'.received ≤ nv.received ∧ v'.transmitted ≤ nv.transmitted) →
      prev.calculate_per_minute next = .error (.unexpectedContent
        (k ++ " is not present in the next measurement"))) ∧
    (∀ prev next : NetworkTrafficMeasurement,
      prev.precise_time_ns < next.precise_time_ns →
      (∀ k v, (k, v) ∈ prev.interfaces →
        ∃ nv, next.interfaces.lookup k = some nv ∧
          v.received ≤ nv.received ∧ v.transmitted ≤ nv.transmitted) →
      ∃ r, prev.calculate_per_minute next = .ok r ∧
        r.interfaces.map Prod.fst = prev.interfaces.map Prod.fst) ∧
    (∀ (prev next : DiskStatsMeasurement) (k : String),
      prev.precise_time_ns < next.precise_time_ns →
      (∃ v, (k, v) ∈ prev.stats) →
      next.stats.lookup k = none →
      (∀ k' v', (k', v') ∈ prev.stats → k' ≠ k →
        ∃ nv, next.stats.lookup k' = some nv ∧ DiskLe v' nv) →
      prev.calculate_per_minute next = .err (.unexpectedContent
        (k ++ " is not present in the next measurement"))) ∧
    (∀ prev next : DiskStatsMeasurement,
      prev.precise_time_ns < next.precise_time_ns →
      (∀ k v, (k, v) ∈ prev.stats →
        ∃ nv, next.stats.lookup k = some nv ∧ DiskLe v nv) →
      ∃ r, prev.calculate_per_minute next = .ok r ∧
        r.stats.map Prod.fst = prev.stats.map Prod.fst) := by
  refine ⟨fun prev next k ht hmem hk hothers => ?_,
    fun prev next ht hall => ?_,
    fun prev next k ht hmem hk hothers => ?_,
    fun prev next ht hall => ?_⟩
  · simp [NetworkTrafficMeasurement.calculate_per_minute,
      ctd_ok (Nat.le_of_lt ht), Except.bind,
      netLoop_missing _ _ _ k hmem hk hothers]
  · obtain ⟨out, hout, hkeys⟩ := netLoop_ok
      (next.precise_time_ns - prev.precise_time_ns) next.interfaces
      prev.interfaces hall
    exact ⟨⟨out⟩, by simp [NetworkTrafficMeasurement.calculate_per_minute,
      ctd_ok (Nat.le_of_lt ht), Except.bind, hout], hkeys⟩
  · simp [DiskStatsMeasurement.calculate_per_minute,
      ctd_ok (Nat.le_of_lt ht), RRes.bindE,
      diskLoop_missing _ _ _ k hmem hk hothers]
  · obtain ⟨out, hout, hkeys⟩ := diskLoop_ok
      (next.precise_time_ns - prev.precise_time_ns) next.stats
      prev.stats hall
    exact ⟨⟨out⟩, by simp [DiskStatsMeasurement.calculate_per_minute,
      ctd_ok (Nat.le_of_lt ht), RRes.bindE, hout], hkeys⟩

theorem claim_C4_witness :
    NetworkTrafficMeasurement.calculate_per_minute
      ⟨60000000000, [("eth1", ⟨2000, 3000⟩)]⟩
      ⟨120000000000, [("eth0", ⟨2000, 2600⟩)]⟩ =
      .error (.unexpectedContent
        ("eth1" ++ " is not present in the next measurement")) :=
  claim_C4.1 ⟨60000000000, [("eth1", ⟨2000, 3000⟩)]⟩
    ⟨120000000000, [("eth0", ⟨2000, 2600⟩)]⟩ "eth1" (by decide)
    ⟨⟨2000, 3000⟩, by decide⟩ (by decide)
    (by
      intro k' v' hm hne
      simp only [List.mem_singleton, Prod.mk.injEq] at hm
      exact absurd hm.1 hne)

/-!
## Claims C7–C8: CPU-count normalization in the cgroup backends
-/

/-- The `cpuacct.stat` loop never touches `total_usage`. -/
theorem v1StatLoop_total : ∀ (lines : List String) (cpu : CgroupCpuStat)
    (fe : Nat) (cpu' : CgroupCpuStat) (fe' : Nat),
    v1StatLoop lines cpu fe = .ok (cpu', fe') →
    cpu'.total_usage = cpu.total_usage
  | [], cpu, fe, cpu', fe', h => by
    simp only [v1StatLoop] at h
    cases h
    rfl
  | line :: rest, cpu, fe, cpu', fe', h => by
    simp only [v1StatLoop] at h
    cases hseg1 : (splitWhitespace line).get? 1 with
    | none => simp only [hseg1] at h; cases h
    | some seg1 =>
      simp only [hseg1] at h
      cases hp : parse_u64 seg1 with
      | error e => simp only [hp, RRes.bindE] at h; cases h
      | ok value =>
        simp only [hp, RRes.bindE] at h
        cases hseg0 : (splitWhitespace line).get? 0 with
        | none => simp only [hseg0] at h; cases h
        | some seg0 =>
          simp only [hseg0] at h
          by_cases h0 : seg0 = "user"
          · rw [if_pos h0, if_pos (Or.inl h0)] at h
            by_cases hfe : fe + 1 = 2
            · rw [if_pos hfe] at h
              cases h
              rfl
            · rw [if_neg hfe] at h
              exact (v1StatLoop_total rest _ _ _ _ h).trans rfl
          · by_cases h1 : seg0 = "system"
            · rw [if_neg h0, if_pos h1, if_pos (Or.inr h1)] at h
              by_cases hfe : fe + 1 = 2
              · rw [if_pos hfe] at h
                cases h
                rfl
              · rw [if_neg hfe] at h
                exact (v1StatLoop_total rest _ _ _ _ h).trans rfl
            · rw [if_neg h0, if_neg h1,
                if_neg (show ¬(seg0 = "user" ∨ seg0 = "system") from fun hc => hc.elim h0 h1)] at h
              by_cases hfe : fe = 2
              · rw [if_pos hfe] at h
                cases h
                rfl
              · rw [if_neg hfe] at h
                exact v1StatLoop_total rest _ _ _ _ h

/-- The `cpuacct.stat` loop's outcome, `user`, `system` and field count do
not depend on the initial `total_usage`; on success each run keeps its own
initial `total_usage`. -/
theorem v1StatLoop_indep : ∀ (lines : List String) (t t' u s fe : Nat),
    (v1StatLoop lines ⟨t, u, s⟩ fe = .panicked ∧
      v1StatLoop lines ⟨t', u, s⟩ fe = .panicked) ∨
    (∃ e, v1StatLoop lines ⟨t, u, s⟩ fe = .err e ∧
      v1StatLoop lines ⟨t', u, s⟩ fe = .err e) ∨
    (∃ u' s' fe', v1StatLoop lines ⟨t, u, s⟩ fe = .ok (⟨t, u', s'⟩, fe') ∧
      v1StatLoop lines ⟨t', u, s⟩ fe = .ok (⟨t', u', s'⟩, fe'))
  | [], t, t', u, s, fe => .inr (.inr ⟨u, s, fe, rfl, rfl⟩)
  | line :: rest, t, t', u, s, fe => by
    simp only [v1StatLoop]
    cases hseg1 : (splitWhitespace line).get? 1 with
    | none => simp [hseg1]
    | some seg1 =>
      simp only [hseg1]
      cases hp : parse_u64 seg1 with
      | error e =>
        simp only [hp, RRes.bindE]
        exact .inr (.inl ⟨e, rfl, rfl⟩)
      | ok value =>
        simp only [hp, RRes.bindE]
        cases hseg0 : (splitWhitespace line).get? 0 with
        | none => simp [hseg0]
        | some seg0 =>
          simp only [hseg0]
          by_cases h0 : seg0 = "user"
          · rw [if_pos h0, if_pos h0, if_pos (Or.inl h0)]
            by_cases hfe : fe + 1 = 2
            · rw [if_pos hfe, if_pos hfe]
              exact .inr (.inr ⟨wmul value 10000000, s, fe + 1, rfl, rfl⟩)
            · rw [if_neg hfe, if_neg hfe]
              exact v1StatLoop_indep rest t t' (wmul value 10000000) s (fe + 1)
          · by_cases h1 : seg0 = "system"
            · rw [if_neg h0, if_neg h0, if_pos h1, if_pos h1,
                if_pos (Or.inr h1)]
              by_cases hfe : fe + 1 = 2
              · rw [if_pos hfe, if_pos hfe]
                exact .inr (.inr ⟨u, wmul value 10000000, fe + 1, rfl, rfl⟩)
              · rw [if_neg hfe, if_neg hfe]
                exact v1StatLoop_indep rest t t' u (wmul value 10000000)
                  (fe + 1)
            · rw [if_neg h0, if_neg h0, if_neg h1, if_neg h1,
                if_neg (show ¬(seg0 = "user" ∨ seg0 = "system") from
                  fun hc => hc.elim h0 h1)]
              by_cases hfe : fe = 2
              · rw [if_pos hfe, if_pos hfe]
                exact .inr (.inr ⟨u, s, fe, rfl, rfl⟩)
              · rw [if_neg hfe, if_neg hfe]
                exact v1StatLoop_indep rest t t' u s fe

/-- With a zero `cpu_count` the v1 body stores the raw usage counter. -/
theorem v1ReadWithCount_zero (statFile usageFile : FileData) (now : Nat)
    (m : CgroupCpuMeasurement) (u : Nat)
    (husage : read_file_value_as_u64 usageFile "cpuacct.usage" = .ok u)
    (h : v1ReadWithCount statFile usageFile now (.fin 0 0) = .ok m) :
    m.stat.total_usage = u := by
  unfold v1ReadWithCount at h
  cases statFile with
  | none => simp [file_to_string, RRes.bindE] at h
  | some statContents =>
    simp only [file_to_string, RRes.bindE] at h
    rw [husage] at h
    simp only [RRes.bindE] at h
    rw [if_neg (by decide : ¬(F64.gtZero (.fin 0 0) = true))] at h
    cases hloop : v1StatLoop (linesOf statContents) ⟨u, 0, 0⟩ 0 with
    | panicked => simp only [hloop] at h; cases h
    | err e => simp only [hloop] at h; cases h
    | ok r =>
      obtain ⟨cpu1, fe1⟩ := r
      simp only [hloop] at h
      by_cases hfe : fe1 = 2
      · rw [if_pos hfe] at h
        cases h
        exact v1StatLoop_total _ _ _ _ _ hloop
      · rw [if_neg hfe] at h
        cases h

/-- A successful v1 body run with any `cpu_count` also succeeds with a zero
`cpu_count`, with the same `user`, `system` and timestamp: the v1 backend
never applies `cpu_count` to `user` or `system`. -/
theorem v1ReadWithCount_indep (statFile usageFile : FileData) (now : Nat)
    (c : F64) (m : CgroupCpuMeasurement)
    (h : v1ReadWithCount statFile usageFile now c = .ok m) :
    ∃ m', v1ReadWithCount statFile usageFile now (.fin 0 0) = .ok m' ∧
      m'.stat.user = m.stat.user ∧ m'.stat.system = m.stat.system ∧
      m'.precise_time_ns = m.precise_time_ns := by
  unfold v1ReadWithCount at h ⊢
  cases statFile with
  | none => simp [file_to_string, RRes.bindE] at h
  | some statContents =>
    simp only [file_to_string, RRes.bindE] at h ⊢
    cases husage : read_file_value_as_u64 usageFile "cpuacct.usage" with
    | error e => rw [husage] at h; simp [RRes.bindE] at h
    | ok u =>
      rw [husage] at h
      simp only [RRes.bindE] at h ⊢
      rw [if_neg (by decide : ¬(F64.gtZero (.fin 0 0) = true))]
      by_cases hg : F64.gtZero c = true
      · rw [if_pos hg] at h
        rcases v1StatLoop_indep (linesOf statContents)
            (F64.roundToU64 (F64.div (F64.ofNat u) c)) u 0 0 0 with
          ⟨h1, _⟩ | ⟨e, h1, _⟩ | ⟨u', s', fe', h1, h2⟩
        · simp only [h1] at h; cases h
        · simp only [h1] at h; cases h
        · simp only [h1] at h
          simp only [h2]
          by_cases hfe : fe' = 2
          · rw [if_pos hfe] at h ⊢
            cases h
            exact ⟨_, rfl, rfl, rfl, rfl⟩
          · rw [if_neg hfe] at h
            cases h
      · rw [if_neg hg] at h
        rcases v1StatLoop_indep (linesOf statContents) u u 0 0 0 with
          ⟨h1, _⟩ | ⟨e, h1, _⟩ | ⟨u', s', fe', h1, h2⟩
        · simp only [h1] at h; cases h
        · simp only [h1] at h; cases h
        · simp only [h1] at h
          simp only [h2]
          by_cases hfe : fe' = 2
          · rw [if_pos hfe] at h ⊢
            cases h
            exact ⟨_, rfl, rfl, rfl, rfl⟩
          · rw [if_neg hfe] at h
            cases h

/-- C7 (amended): in the v2 backend a `cpu_count` greater than zero divides
every counter of the stat (total usage, user, system), rounding to nearest;
but this does NOT match the v1 backend, which applies its `cpu_count` only
to `total_usage` — a successful v1 read yields the same `user` and `system`
as the read with no CPU-quota files (hence no normalization) at all. -/
theorem claim_C7 :
    (∀ (s : CgroupCpuStat) (c : F64), c.gtZero = true →
      s.by_cpu_count (some c) =
        ⟨F64.roundToU64 (F64.div (F64.ofNat s.total_usage) c),
          F64.roundToU64 (F64.div (F64.ofNat s.user) c),
          F64.roundToU64 (F64.div (F64.ofNat s.system) c)⟩) ∧
    (∀ (periodFile quotaFile statFile usageFile : FileData) (now : Nat)
      (m : CgroupCpuMeasurement),
      read_and_parse_v1_sys_stat periodFile quotaFile statFile usageFile
        now = .ok m →
      ∃ m', read_and_parse_v1_sys_stat none none statFile usageFile now =
          .ok m' ∧
        m'.stat.user = m.stat.user ∧ m'.stat.system = m.stat.system) := by
  constructor
  · intro s c hc
    simp [CgroupCpuStat.by_cpu_count, hc]
  · intro pf qf sf uf now m h
    unfold read_and_parse_v1_sys_stat at h ⊢
    cases hcc : v1CpuCount pf qf with
    | error e => rw [hcc] at h; simp [RRes.bindE] at h
    | ok c =>
      rw [hcc] at h
      simp only [RRes.bindE] at h
      obtain ⟨m', hm', hu, hs, _⟩ := v1ReadWithCount_indep sf uf now c m h
      exact ⟨m', by simp only [v1CpuCount, RRes.bindE]; exact hm', hu, hs⟩

theorem claim_C7_witness :
    CgroupCpuStat.by_cpu_count ⟨100, 10, 6⟩ (some (.fin (2 ^ 52) (-51))) =
      ⟨F64.roundToU64 (F64.div (F64.ofNat 100) (.fin (2 ^ 52) (-51))),
        F64.roundToU64 (F64.div (F64.ofNat 10) (.fin (2 ^ 52) (-51))),
        F64.roundToU64 (F64.div (F64.ofNat 6) (.fin (2 ^ 52) (-51)))⟩ :=
  claim_C7.1 ⟨100, 10, 6⟩ (.fin (2 ^ 52) (-51)) (by decide)

/-- C7 counterexample: identical raw counters (1e9 ns total, 1e7 ns user,
98e7 ns system) and an identical computed `cpu_count` of `2.0`, yet the v1
backend divides only the total (user/system keep their raw values) while
the v2 backend divides all three — the normalized measurements differ. -/
theorem claim_C7_cex :
    read_and_parse_v1_sys_stat (some "100000\n") (some "200000\n")
      (some "user 1\nsystem 98\n") (some "1000000000\n") 7 =
      .ok ⟨7, ⟨500000000, 10000000, 980000000⟩⟩ ∧
    read_and_parse_v2_sys_stat
      (some "usage_usec 1000000\nuser_usec 10000\nsystem_usec 980000\n")
      (some "200000 100000\n") none 7 =
      .ok ⟨7, ⟨500000000, 5000000, 490000000⟩⟩ ∧
    (10000000 : Nat) ≠ 5000000 := by
  refine ⟨by decide, by decide, by decide⟩

/-- C8: a v1 quota file holding the sentinel `-1` (or a missing period or
quota file) disables CPU-count normalization: the resulting `total_usage`
is the raw `cpuacct.usage` counter, unchanged. -/
theorem claim_C8 :
    (∀ (periodContents quotaContents : String) (statFile usageFile : FileData)
      (now : Nat) (m : CgroupCpuMeasurement) (u : Nat),
      trimStr quotaContents = "-1" →
      read_file_value_as_u64 usageFile "cpuacct.usage" = .ok u →
      read_and_parse_v1_sys_stat (some periodContents) (some quotaContents)
        statFile usageFile now = .ok m →
      m.stat.total_usage = u) ∧
    (∀ (periodFile quotaFile statFile usageFile : FileData) (now : Nat)
      (m : CgroupCpuMeasurement) (u : Nat),
      periodFile = none ∨ quotaFile = none →
      read_file_value_as_u64 usageFile "cpuacct.usage" = .ok u →
      read_and_parse_v1_sys_stat periodFile quotaFile statFile usageFile
        now = .ok m →
      m.stat.total_usage = u) := by
  constructor
  · intro pC qC sf uf now m u hqt husage h
    unfold read_and_parse_v1_sys_stat at h
    have hv : v1CpuCount (some pC) (some qC) =
        Except.bind (parse_u64 (trimStr pC)) (fun cpu_period =>
          if trimStr qC = "-1" then .ok (.fin 0 0)
          else Except.bind (parse_u64 (trimStr qC)) fun cpu_quota =>
            .ok (F64.div (F64.ofNat cpu_quota) (F64.ofNat cpu_period))) := rfl
    rw [hv] at h
    cases hpp : parse_u64 (trimStr pC) with
    | error e => rw [hpp] at h; simp [Except.bind, RRes.bindE] at h
    | ok p =>
      rw [hpp] at h
      simp only [Except.bind] at h
      rw [if_pos hqt] at h
      simp only [RRes.bindE] at h
      exact v1ReadWithCount_zero sf uf now m u husage h
  · intro pf qf sf uf now m u hnone husage h
    unfold read_and_parse_v1_sys_stat at h
    have hcc : v1CpuCount pf qf = .ok (.fin 0 0) := by
      rcases hnone with h1 | h1
      · subst h1; rfl
      · subst h1
        cases pf <;> rfl
    rw [hcc] at h
    simp only [RRes.bindE] at h
    exact v1ReadWithCount_zero sf uf now m u husage h

theorem claim_C8_witness :
    trimStr "-1\n" = "-1" ∧
    read_file_value_as_u64 (some "152657213021\n") "cpuacct.usage" =
      .ok 152657213021 ∧
    read_and_parse_v1_sys_stat (some "100000\n") (some "-1\n")
      (some "user 14934\nsystem 98\n") (some "152657213021\n") 7 =
      .ok ⟨7, ⟨152657213021, 149340000000, 980000000⟩⟩ ∧
    (⟨7, ⟨152657213021, 149340000000, 980000000⟩⟩ :
      CgroupCpuMeasurement).stat.total_usage = 152657213021 :=
  ⟨by decide, by decide, by decide,
    claim_C8.1 "100000\n" "-1\n" (some "user 14934\nsystem 98\n")
      (some "152657213021\n") 7 _ _ (by decide) (by decide) (by decide)⟩

/-!
## Claim C10: unknown memory quantities are `None`, never zero
-/

/-- C10: the v1 memory backend leaves `total` (and therefore `free`) as
`None` when `memory.limit_in_bytes` parses to at least
`9223372036854771712` (the v1 "no limit" sentinel), and both memory
backends set `swap_total` (and therefore `swap_free`) to `None` whenever
the swap-limit file cannot be read, instead of erroring or reporting 0. -/
theorem claim_C10 :
    (∀ (lf uf sf mlf muf : FileData) (m : MemoryV1) (limit : Nat),
      read_file_value_as_u64 lf "memory.limit_in_bytes" = .ok limit →
      9223372036854771712 ≤ limit →
      read_and_parse_v1_sys_memory lf uf sf mlf muf = .ok m →
      m.total = none ∧ m.free = none) ∧
    (∀ (lf uf sf mlf muf : FileData) (m : MemoryV1) (e : ProbeError),
      read_file_value_as_u64 mlf "memory.memsw.limit_in_bytes" = .error e →
      read_and_parse_v1_sys_memory lf uf sf mlf muf = .ok m →
      m.swap_total = none ∧ m.swap_free = none) ∧
    (∀ (mf cf sf smf scf : FileData) (m : MemoryV2) (e : ProbeError),
      read_file_value_as_u64 smf "memory.swap.max" = .error e →
      read_and_parse_v2_sys_memory mf cf sf smf scf = .ok m →
      m.swap_total = none ∧ m.swap_free = none) := by
  refine ⟨fun lf uf sf mlf muf m limit hlim hge h => ?_,
    fun lf uf sf mlf muf m e hmlf h => ?_,
    fun mf cf sf smf scf m e hsmf h => ?_⟩
  · unfold read_and_parse_v1_sys_memory at h
    rw [hlim] at h
    simp only [RRes.bindE] at h
    rw [if_neg (Nat.not_lt.mpr hge)] at h
    cases hu : read_file_value_as_u64 uf "memory.usage_in_bytes" with
    | error e => rw [hu] at h; simp [RRes.bindE] at h
    | ok usageRaw =>
      rw [hu] at h
      simp only [RRes.bindE] at h
      cases sf with
      | none => simp [file_to_string, RRes.bindE] at h
      | some statContents =>
        simp only [file_to_string, RRes.bindE] at h
        cases hloop : memV1StatLoop (linesOf statContents) 0 0 with
        | panicked => simp only [hloop] at h; cases h
        | err e => simp only [hloop] at h; cases h
        | ok r =>
          obtain ⟨cached, shmem⟩ := r
          simp only [hloop] at h
          cases h
          exact ⟨rfl, rfl⟩
  · unfold read_and_parse_v1_sys_memory at h
    cases hl : read_file_value_as_u64 lf "memory.limit_in_bytes" with
    | error e' => rw [hl] at h; simp [RRes.bindE] at h
    | ok limit =>
      rw [hl] at h
      simp only [RRes.bindE] at h
      cases hu : read_file_value_as_u64 uf "memory.usage_in_bytes" with
      | error e' => rw [hu] at h; simp [RRes.bindE] at h
      | ok usageRaw =>
        rw [hu] at h
        simp only [RRes.bindE] at h
        cases sf with
        | none => simp [file_to_string, RRes.bindE] at h
        | some statContents =>
          simp only [file_to_string, RRes.bindE] at h
          cases hloop : memV1StatLoop (linesOf statContents) 0 0 with
          | panicked => simp only [hloop] at h; cases h
          | err e' => simp only [hloop] at h; cases h
          | ok r =>
            obtain ⟨cached, shmem⟩ := r
            simp only [hloop] at h
            rw [hmlf] at h
            cases h
            exact ⟨rfl, rfl⟩
  · unfold read_and_parse_v2_sys_memory at h
    cases hu : read_file_value_as_u64 cf "memory.current" with
    | error e' => rw [hu] at h; simp [RRes.bindE] at h
    | ok currentRaw =>
      rw [hu] at h
      simp only [RRes.bindE] at h
      cases sf with
      | none => simp [file_to_string, RRes.bindE] at h
      | some statContents =>
        simp only [file_to_string, RRes.bindE] at h
        cases hloop : memV2StatLoop (linesOf statContents) with
        | panicked => simp only [hloop] at h; cases h
        | err e' => simp only [hloop] at h; cases h
        | ok shmem =>
          simp only [hloop] at h
          rw [hsmf] at h
          cases h
          exact ⟨rfl, rfl⟩

theorem claim_C10_witness :
    read_file_value_as_u64 (some "9223372036854771712\n")
      "memory.limit_in_bytes" = .ok 9223372036854771712 ∧
    read_and_parse_v1_sys_memory (some "9223372036854771712\n")
      (some "69148672\n") (some "cache 60342272\nshmem 0\n") none none =
      .ok ⟨none, none, 8600, 0, 58928, 0, none, none, none⟩ ∧
    (⟨none, none, 8600, 0, 58928, 0, none, none, none⟩ : MemoryV1).total =
      none ∧
    (⟨none, none, 8600, 0, 58928, 0, none, none, none⟩ : MemoryV1).free =
      none :=
  ⟨by decide, by decide,
    (claim_C10.1 (some "9223372036854771712\n") (some "69148672\n")
      (some "cache 60342272\nshmem 0\n") none none
      ⟨none, none, 8600, 0, 58928, 0, none, none, none⟩ 9223372036854771712
      (by decide) (by decide) (by decide)).1,
    (claim_C10.1 (some "9223372036854771712\n") (some "69148672\n")
      (some "cache 60342272\nshmem 0\n") none none
      ⟨none, none, 8600, 0, 58928, 0, none, none, none⟩ 9223372036854771712
      (by decide) (by decide) (by decide)).2⟩

/-!
## Claim C9: exactness of normalization by a CPU count of 1.0

The supporting facts: `bitLen` brackets its argument between consecutive
powers of two, so `qexp` computes the exact binary exponent of an integer
ratio, and rounding an integer below `2 ^ 53` to a double is the identity.
-/

theorem bitLenAux_zero : ∀ fuel, bitLenAux fuel 0 = 0
  | 0 => rfl
  | _ + 1 => by simp [bitLenAux]

theorem bitLenAux_spec : ∀ fuel n, 1 ≤ n → n ≤ fuel →
    2 ^ (bitLenAux fuel n - 1) ≤ n ∧ n < 2 ^ bitLenAux fuel n
  | 0, n, h1, h2 => absurd (Nat.le_trans h1 h2) (by omega)
  | fuel + 1, n, h1, h2 => by
    rw [bitLenAux, if_neg (by omega : ¬n = 0)]
    by_cases hn1 : n = 1
    · subst hn1
      simp [bitLenAux_zero]
    · have h1' : 1 ≤ n / 2 := by omega
      have h2' : n / 2 ≤ fuel := by omega
      obtain ⟨hlo, hhi⟩ := bitLenAux_spec fuel (n / 2) h1' h2'
      have hk1 : 1 ≤ bitLenAux fuel (n / 2) := by
        by_contra hk
        have hz : bitLenAux fuel (n / 2) = 0 := by omega
        rw [hz] at hhi
        omega
      set k := bitLenAux fuel (n / 2) with hkdef
      have hp1 : 2 ^ k = 2 ^ (k - 1) * 2 := by
        conv_lhs => rw [show k = k - 1 + 1 by omega]
        rw [pow_succ]
      have hp2 : 2 ^ (k + 1) = 2 ^ k * 2 := pow_succ 2 k
      constructor
      · simpa using by omega
      · omega

theorem bitLen_spec (n : Nat) (h : 1 ≤ n) :
    2 ^ (bitLen n - 1) ≤ n ∧ n < 2 ^ bitLen n :=
  bitLenAux_spec n n h le_rfl

theorem bitLen_pos (n : Nat) (h : 1 ≤ n) : 1 ≤ bitLen n := by
  obtain ⟨_, hhi⟩ := bitLen_spec n h
  by_contra hk
  have hz : bitLen n = 0 := by omega
  rw [hz] at hhi
  omega

theorem bitLen_eq (n k : Nat) (h1 : 2 ^ k ≤ n) (h2 : n < 2 ^ (k + 1)) :
    bitLen n = k + 1 := by
  have hn : 1 ≤ n := Nat.le_trans (Nat.one_le_two_pow) h1
  obtain ⟨hlo, hhi⟩ := bitLen_spec n hn
  have hL1 := bitLen_pos n hn
  by_contra hne
  rcases Nat.lt_or_ge (bitLen n) (k + 1) with hlt | hge
  · have : (2 : Nat) ^ bitLen n ≤ 2 ^ k :=
      Nat.pow_le_pow_right (by omega) (by omega)
    omega
  · have hge' : k + 2 ≤ bitLen n := by omega
    have : (2 : Nat) ^ (k + 1) ≤ 2 ^ (bitLen n - 1) :=
      Nat.pow_le_pow_right (by omega) (by omega)
    omega

theorem bitLen_mul (n b : Nat) (hn : 1 ≤ n) (hb : 1 ≤ b) :
    bitLen (n * b) = bitLen n + bitLen b - 1 ∨
    bitLen (n * b) = bitLen n + bitLen b := by
  obtain ⟨hnlo, hnhi⟩ := bitLen_spec n hn
  obtain ⟨hblo, hbhi⟩ := bitLen_spec b hb
  have hnb : 1 ≤ n * b := Nat.one_le_iff_ne_zero.mpr (by positivity)
  obtain ⟨hplo, hphi⟩ := bitLen_spec (n * b) hnb
  have hLn := bitLen_pos n hn
  have hLb := bitLen_pos b hb
  have hlow : 2 ^ (bitLen n + bitLen b - 2) ≤ n * b := by
    calc 2 ^ (bitLen n + bitLen b - 2)
        = 2 ^ (bitLen n - 1) * 2 ^ (bitLen b - 1) := by
          rw [← pow_add]
          congr 1
          omega
      _ ≤ n * b := Nat.mul_le_mul hnlo hblo
  have hhigh : n * b < 2 ^ (bitLen n + bitLen b) := by
    calc n * b < 2 ^ bitLen n * 2 ^ bitLen b := by
          exact Nat.mul_lt_mul_of_lt_of_le hnhi (Nat.le_of_lt hbhi)
            (Nat.pow_pos (by omega))
      _ = 2 ^ (bitLen n + bitLen b) := (pow_add 2 _ _).symm
  have c1 : bitLen n + bitLen b - 2 < bitLen (n * b) := by
    have : (2 : Nat) ^ (bitLen n + bitLen b - 2) < 2 ^ bitLen (n * b) :=
      Nat.lt_of_le_of_lt hlow hphi
    exact (Nat.pow_lt_pow_iff_right (by omega)).mp this
  have c2 : bitLen (n * b) - 1 < bitLen n + bitLen b := by
    have : (2 : Nat) ^ (bitLen (n * b) - 1) < 2 ^ (bitLen n + bitLen b) :=
      Nat.lt_of_le_of_lt hplo hhigh
    exact (Nat.pow_lt_pow_iff_right (by omega)).mp this
  omega

theorem rheDiv_mul (k b : Nat) (hb : 0 < b) : rheDiv (k * b) b = k := by
  unfold rheDiv
  rw [Nat.mul_div_cancel k hb, Nat.mul_mod_left]
  simp [hb]

theorem qexp_mul (n b : Nat) (hn : 1 ≤ n) (hb : 1 ≤ b) :
    qexp (n * b) b = (bitLen n : Int) - 1 := by
  obtain ⟨hnlo, hnhi⟩ := bitLen_spec n hn
  have hLn := bitLen_pos n hn
  have hLb := bitLen_pos b hb
  unfold qexp
  rcases bitLen_mul n b hn hb with hL | hL
  · have he0 : (bitLen (n * b) : Int) - (bitLen b : Int) =
        (bitLen n : Int) - 1 := by
      rw [hL]
      omega
    have hcond : le2pow b (n * b) ((bitLen n : Int) - 1) = true := by
      unfold le2pow
      rw [if_pos (by omega : (0 : Int) ≤ (bitLen n : Int) - 1)]
      have ht : ((bitLen n : Int) - 1).toNat = bitLen n - 1 := by omega
      rw [ht]
      simp only [decide_eq_true_eq]
      calc b * 2 ^ (bitLen n - 1) = 2 ^ (bitLen n - 1) * b :=
            Nat.mul_comm _ _
        _ ≤ n * b := Nat.mul_le_mul_right b hnlo
    rw [he0]
    simp [hcond]
  · have he0 : (bitLen (n * b) : Int) - (bitLen b : Int) =
        (bitLen n : Int) := by
      rw [hL]
      omega
    have hcond : le2pow b (n * b) (bitLen n : Int) = false := by
      unfold le2pow
      rw [if_pos (by omega : (0 : Int) ≤ (bitLen n : Int))]
      have ht : ((bitLen n : Int)).toNat = bitLen n := by omega
      rw [ht]
      simp only [decide_eq_false_iff_not]
      intro hc
      have hc' : 2 ^ bitLen n * b ≤ n * b := by
        rwa [Nat.mul_comm] at hc
      have : 2 ^ bitLen n ≤ n :=
        Nat.le_of_mul_le_mul_right hc' (by omega)
      omega
    rw [he0]
    simp [hcond]

/-- Rounding the integer ratio `(n * b) / b = n` to a double is exact for
`1 ≤ n < 2 ^ 53`, with canonical mantissa `n * 2 ^ (53 - bitLen n)`. -/
theorem roundQF_nat (b n : Nat) (hb : 1 ≤ b) (hn : 1 ≤ n)
    (hlt : n < 2 ^ 53) :
    roundQF (n * b) b =
      .fin (n * 2 ^ (53 - bitLen n)) ((bitLen n : Int) - 53) := by
  have hLn := bitLen_pos n hn
  have hLn53 : bitLen n ≤ 53 := by
    by_contra hgt
    have hlo := (bitLen_spec n hn).1
    have : (2 : Nat) ^ 53 ≤ 2 ^ (bitLen n - 1) :=
      Nat.pow_le_pow_right (by omega) (by omega)
    omega
  unfold roundQF
  rw [if_neg (by positivity : ¬n * b = 0), qexp_mul n b hn hb]
  dsimp only
  have hs : (0 : Int) ≤ 52 - ((bitLen n : Int) - 1) := by omega
  rw [if_pos hs, if_neg (by omega : ¬(1023 : Int) < (bitLen n : Int) - 1)]
  have ht : ((52 : Int) - ((bitLen n : Int) - 1)).toNat = 53 - bitLen n := by
    omega
  rw [ht]
  have harg : n * b * 2 ^ (53 - bitLen n) =
      n * 2 ^ (53 - bitLen n) * b := by ring
  rw [harg, rheDiv_mul _ b (by omega)]
  congr 1
  omega

/-- Converting an integer below `2 ^ 53` to a double is exact. -/
theorem ofNat_canon (n : Nat) (hn : 1 ≤ n) (hlt : n < 2 ^ 53) :
    F64.ofNat n = .fin (n * 2 ^ (53 - bitLen n)) ((bitLen n : Int) - 53) := by
  have h := roundQF_nat 1 n le_rfl hn hlt
  rw [mul_one] at h
  exact h

/-- Dividing the double holding `n < 2 ^ 53` by the double `1.0`
(`.fin (2 ^ 52) (-52)`) is exact. -/
theorem div_one_canon (n : Nat) (hn : 1 ≤ n) (hlt : n < 2 ^ 53) :
    F64.div (F64.ofNat n) (.fin (2 ^ 52) (-52)) =
      .fin (n * 2 ^ (53 - bitLen n)) ((bitLen n : Int) - 53) := by
  have hLn := bitLen_pos n hn
  have hLn53 : bitLen n ≤ 53 := by
    by_contra hgt
    have hlo := (bitLen_spec n hn).1
    have : (2 : Nat) ^ 53 ≤ 2 ^ (bitLen n - 1) :=
      Nat.pow_le_pow_right (by omega) (by omega)
    omega
  rw [ofNat_canon n hn hlt]
  unfold F64.div
  dsimp only
  rw [if_neg (by positivity : ¬(2 : Nat) ^ 52 = 0),
    if_neg (show ¬n * 2 ^ (53 - bitLen n) = 0 from
      Nat.mul_ne_zero (by omega) (by positivity))]
  unfold roundQFsh
  have hsh : ((bitLen n : Int) - 53) - (-52) = (bitLen n : Int) - 1 := by
    omega
  rw [hsh, if_pos (by omega : (0 : Int) ≤ (bitLen n : Int) - 1)]
  have ht : ((bitLen n : Int) - 1).toNat = bitLen n - 1 := by omega
  rw [ht]
  have harg : n * 2 ^ (53 - bitLen n) * 2 ^ (bitLen n - 1) =
      n * 2 ^ 52 := by
    rw [mul_assoc, ← pow_add]
    congr 2
    omega
  rw [harg]
  exact roundQF_nat (2 ^ 52) n (Nat.one_le_two_pow) hn hlt

/-- Rust's `.round() as u64` on the canonical double of `n < 2 ^ 53` gives
back `n`. -/
theorem roundToU64_canon (n : Nat) (hn : 1 ≤ n) (hlt : n < 2 ^ 53) :
    F64.roundToU64 (.fin (n * 2 ^ (53 - bitLen n)) ((bitLen n : Int) - 53)) =
      n := by
  have hLn := bitLen_pos n hn
  have hLn53 : bitLen n ≤ 53 := by
    by_contra hgt
    have hlo := (bitLen_spec n hn).1
    have : (2 : Nat) ^ 53 ≤ 2 ^ (bitLen n - 1) :=
      Nat.pow_le_pow_right (by omega) (by omega)
    omega
  unfold F64.roundToU64
  dsimp only
  have hn64 : n ≤ 2 ^ 64 - 1 := by
    have : (2 : Nat) ^ 53 ≤ 2 ^ 64 := Nat.pow_le_pow_right (by omega)
      (by omega)
    omega
  by_cases hL : bitLen n = 53
  · rw [if_pos (by omega : (0 : Int) ≤ (bitLen n : Int) - 53)]
    have ht : ((bitLen n : Int) - 53).toNat = 0 := by omega
    rw [ht, hL]
    simp [show n ≤ 18446744073709551615 from by omega]
  · rw [if_neg (by omega : ¬(0 : Int) ≤ (bitLen n : Int) - 53)]
    have ht : (-((bitLen n : Int) - 53)).toNat = 53 - bitLen n := by omega
    rw [ht]
    have hmod : n * 2 ^ (53 - bitLen n) % 2 ^ (53 - bitLen n) = 0 :=
      Nat.mul_mod_left _ _
    have hdiv : n * 2 ^ (53 - bitLen n) / 2 ^ (53 - bitLen n) = n :=
      Nat.mul_div_cancel n (by positivity)
    rw [hmod, hdiv]
    have hpos : 0 < 2 ^ (53 - bitLen n) := by positivity
    rw [if_neg (by omega : ¬2 ^ (53 - bitLen n) ≤ 2 * 0)]
    simp [show n ≤ 18446744073709551615 from by omega]

/-- The v1 normalization `(n as f64 / 1.0).round() as u64` is the identity
for `n < 2 ^ 53`. -/
theorem normOneF64 (n : Nat) (hlt : n < 2 ^ 53) :
    F64.roundToU64 (F64.div (F64.ofNat n) (.fin (2 ^ 52) (-52))) = n := by
  rcases Nat.eq_zero_or_pos n with hz | hp
  · subst hz
    decide
  · rw [div_one_canon n hp hlt, roundToU64_canon n hp hlt]

/-- Dividing any positive finite double by itself yields exactly `1.0`. -/
theorem fdiv_self (m : Nat) (e : Int) (hm : 0 < m) :
    F64.div (.fin m e) (.fin m e) = .fin (2 ^ 52) (-52) := by
  unfold F64.div
  dsimp only
  rw [if_neg (by omega : ¬m = 0), if_neg (by omega : ¬m = 0)]
  unfold roundQFsh
  rw [sub_self, if_pos le_rfl]
  have harg : m * 2 ^ (0 : Int).toNat = 1 * m := by simp
  rw [harg]
  have h := roundQF_nat m 1 hm le_rfl (by norm_num)
  rw [h]
  decide

/-- C9 (amended): normalization by a CPU count of exactly `1.0` is the
identity for counter values below `2 ^ 53` (the values `f64` represents
exactly): the v1 total normalization returns the counter unchanged, the v2
`by_cpu_count` returns the stat unchanged, and a quota equal to its period
computes a CPU count of exactly `1.0`.  (For counters at `2 ^ 53` or above
the `as f64` conversion itself perturbs the value — see the
counterexample, where the change is 513, beyond integer rounding.) -/
theorem claim_C9 :
    (∀ n : Nat, n < 2 ^ 53 →
      F64.roundToU64 (F64.div (F64.ofNat n) (.fin (2 ^ 52) (-52))) = n) ∧
    (∀ s : CgroupCpuStat, s.total_usage < 2 ^ 53 → s.user < 2 ^ 53 →
      s.system < 2 ^ 53 → s.by_cpu_count (some (.fin (2 ^ 52) (-52))) = s) ∧
    (∀ (m : Nat) (e : Int), 0 < m →
      F64.div (.fin m e) (.fin m e) = .fin (2 ^ 52) (-52)) := by
  refine ⟨normOneF64, ?_, fdiv_self⟩
  intro s h1 h2 h3
  obtain ⟨t, u, sy⟩ := s
  simp only [CgroupCpuStat.by_cpu_count,
    (by decide : F64.gtZero (.fin (2 ^ 52) (-52)) = true), if_pos rfl]
  rw [normOneF64 t h1, normOneF64 u h2, normOneF64 sy h3]
  simp

theorem claim_C9_witness :
    (152657213021 : Nat) < 2 ^ 53 ∧
    CgroupCpuStat.by_cpu_count ⟨152657213021, 149340000000, 980000000⟩
      (some (.fin (2 ^ 52) (-52))) =
      ⟨152657213021, 149340000000, 980000000⟩ :=
  ⟨by decide,
    claim_C9.2.1 ⟨152657213021, 149340000000, 980000000⟩ (by decide)
      (by decide) (by decide)⟩

/-- C9 counterexample: a computed CPU count of exactly `1.0` (quota equal to
period) does not leave every field unchanged.  With a raw
`cpuacct.usage` of `2 ^ 63 + 513` the v1 backend stores `2 ^ 63` — the
`as f64` conversion loses the `513`, far beyond integer rounding. -/
theorem claim_C9_cex :
    read_and_parse_v1_sys_stat (some "100000\n") (some "100000\n")
      (some "user 0\nsystem 0\n") (some "9223372036854776321\n") 7 =
      .ok ⟨7, ⟨9223372036854775808, 0, 0⟩⟩ ∧
    (9223372036854776321 : Nat) ≠ 9223372036854775808 := by
  refine ⟨by decide, by decide⟩

/-!
## Validation against the upstream fixture tests

These closed evaluations mirror the repository's own unit tests (the
`fixtures/linux/...` files), pinning the embedding to the behavior the
tests assert, including the rounding-sensitive normalized values.
-/

/-- Mirror of `test_read_v1_sys_measurement_no_quota`. -/
theorem fixture_v1_no_quota : read_and_parse_v1_sys_stat none none
    (some "user 14934\nsystem 98\n") (some "152657213021\n") 7 =
    .ok ⟨7, ⟨152657213021, 149340000000, 980000000⟩⟩ := by decide

/-- Mirror of `test_read_v1_sys_measurement_two_cpu`. -/
theorem fixture_v1_two_cpu : read_and_parse_v1_sys_stat (some "100000\n")
    (some "200000\n") (some "user 14934\nsystem 98\n")
    (some "152657213021\n") 7 =
    .ok ⟨7, ⟨76328606511, 149340000000, 980000000⟩⟩ := by decide

/-- Mirror of `test_read_v1_sys_measurement_half_cpu`. -/
theorem fixture_v1_half_cpu : read_and_parse_v1_sys_stat (some "100000\n")
    (some "50000\n") (some "user 14934\nsystem 98\n")
    (some "152657213021\n") 7 =
    .ok ⟨7, ⟨305314426042, 149340000000, 980000000⟩⟩ := by decide

/-- Mirror of `test_read_v1_sys_measurement_minus_one`. -/
theorem fixture_v1_minus_one : read_and_parse_v1_sys_stat (some "100000\n")
    (some "-1\n") (some "user 14934\nsystem 98\n")
    (some "152657213021\n") 7 =
    .ok ⟨7, ⟨152657213021, 149340000000, 980000000⟩⟩ := by decide

/-- Mirror of `test_read_v2_sys_measurement_2_cpus`. -/
theorem fixture_v2_two_cpus : read_and_parse_v2_sys_stat
    (some "usage_usec 171462\nuser_usec 53792\nsystem_usec 117670\n")
    (some "200000 100000\n") none 7 =
    .ok ⟨7, ⟨85731000, 26896000, 58835000⟩⟩ := by decide

/-- Mirror of `test_read_v2_sys_measurement_half_usage`. -/
theorem fixture_v2_half : read_and_parse_v2_sys_stat
    (some "usage_usec 171462\nuser_usec 53792\nsystem_usec 117670\n")
    (some "50000 100000\n") none 7 =
    .ok ⟨7, ⟨342924000, 107584000, 235340000⟩⟩ := by decide

/-- Mirror of `test_read_v2_sys_measurement_default_cpu_max`. -/
theorem fixture_v2_default : read_and_parse_v2_sys_stat
    (some "usage_usec 171462\nuser_usec 53792\nsystem_usec 117670\n")
    (some "max 100000\n") none 7 =
    .ok ⟨7, ⟨171462000, 53792000, 117670000⟩⟩ := by decide

/-- Mirror of `test_read_v2_sys_measurement_half_cpu_count` (an explicit
count of `0.5`, the double `.fin (2 ^ 52) (-53)`). -/
theorem fixture_v2_half_count : read_and_parse_v2_sys_stat
    (some "usage_usec 171462\nuser_usec 53792\nsystem_usec 117670\n")
    (some "garbage") (some (.fin (2 ^ 52) (-53))) 7 =
    .ok ⟨7, ⟨342924000, 107584000, 235340000⟩⟩ := by decide

/-- Mirror of `test_read_and_parse_v1_sys_memory`. -/
theorem fixture_mem_v1 : read_and_parse_v1_sys_memory (some "524288000\n")
    (some "69148672\n") (some "cache 60342272\nshmem 0\n")
    (some "2048000000\n") (some "512000000\n") =
    .ok ⟨some 512000, some 503400, 8600, 0, 58928, 0, some 1488000,
      some 1055528, some 432472⟩ := by decide

/-- Mirror of `test_read_and_parse_v1_sys_memory_no_swap` (missing swap
files). -/
theorem fixture_mem_v1_no_swap : read_and_parse_v1_sys_memory
    (some "524288000\n") (some "69148672\n")
    (some "cache 60342272\nshmem 0\n") none none =
    .ok ⟨some 512000, some 503400, 8600, 0, 58928, 0, none, none, none⟩ := by
  decide

/-- Mirror of `test_read_and_parse_v2_sys_memory`. -/
theorem fixture_mem_v2 : read_and_parse_v2_sys_memory (some "524288000\n")
    (some "69148672\n") (some "shmem 0\n") (some "2048000000\n")
    (some "512000000\n") =
    .ok ⟨some 512000, some 444472, 67528, none, none, some 0, some 1488000,
      some 988000, some 500000⟩ := by decide

/-- Mirror of `test_time_adjusted` in `src/lib.rs`: deltas of 1200 over
60-, 30- and 15-second windows. -/
theorem fixture_time_adjusted :
    timeAdjustedValue 1200 60000000000 = 1200 ∧
    timeAdjustedValue 1200 30000000000 = 2400 ∧
    timeAdjustedValue 1200 15000000000 = 4800 := by
  refine ⟨by decide, by decide, by decide⟩
